import Mathlib

/-!
Verification of `sunpos.go`: two shallow embeddings of the solar position routine `Sunpos`.

* The calendar stage (lines 51-58 of the source) works on the civil fields that
  `time.Time` hands out (`Year`, `Month`, `Day`, `Hour`, `Minute`, `Second`, all
  Go `int`s) and is embedded over `Int` and `ℚ`; Go's `/` on `int` truncates toward
  zero and is embedded as `Int.tdiv`.  No intermediate value comes near the 64-bit
  range for any year `time.Time` can hold, so no wrap-around is modelled.
* The exact reading of the trigonometric stages (lines 70-121) is over `ℝ`: `float64`
  values are read as the real numbers they stand for and `math.Sin`, `math.Cos`, ... as
  the mathematical functions.  It says what the formulas do in exact arithmetic.
* The `float64` reading (namespace `Go`) computes what the compiled code computes: IEEE-754
  binary64 values (`F64`), every operation rounded to nearest-even, no fused
  multiply-add (as on amd64), and the pure-Go kernels of package `math`.  Statements about
  the exact reading that rounding breaks are refuted there at concrete inputs.
-/

namespace SolarPosition

/-! ## Data model -/

/-- The civil fields of a Go `time.Time` value, as returned by its accessors
`Year()`, `Month()`, `Day()`, `Hour()`, `Minute()`, `Second()` and `Nanosecond()`. -/
structure Time where
  Year : Int
  Month : Int
  Day : Int
  Hour : Int
  Minute : Int
  Second : Int
  Nanosecond : Int
  deriving DecidableEq, Repr

/-- Go `time.Date(year, month, day, hour, min, sec, nsec, time.UTC)` for fields that are
already in range (no normalisation is modelled). -/
def Date (year month day hour min sec nsec : Int) : Time :=
  ⟨year, month, day, hour, min, sec, nsec⟩

/-- Go `t.Truncate(time.Second)`: the same instant with its sub-second part dropped. -/
def Time.truncateSecond (t : Time) : Time :=
  { t with Nanosecond := 0 }

/-! ## Stage 1: elapsed Julian days (source lines 51-58) -/

/-- Line 52: `dDecimalHours = float64(Hour) + (float64(Minute) + float64(Second)/60.0)/60.0`. -/
def dDecimalHours (t : Time) : ℚ :=
  (t.Hour : ℚ) + ((t.Minute : ℚ) + (t.Second : ℚ) / 60) / 60

/-- Line 54: `liAux1 = (int(Month) - 14) / 12`, Go integer division. -/
def liAux1 (month : Int) : Int :=
  Int.tdiv (month - 14) 12

/-- Line 55: the integer `liAux2` built from year, month and day. -/
def liAux2 (year month day : Int) : Int :=
  Int.tdiv (1461 * (year + 4800 + liAux1 month)) 4
    + Int.tdiv (367 * (month - 2 - 12 * liAux1 month)) 12
    - Int.tdiv (3 * Int.tdiv (year + 4900 + liAux1 month) 100) 4
    + day - 32075

/-- Line 56: `dJulianDate = float64(liAux2) - 0.5 + dDecimalHours/24.0`. -/
def dJulianDate (t : Time) : ℚ :=
  (liAux2 t.Year t.Month t.Day : ℚ) - 1 / 2 + dDecimalHours t / 24

/-- Line 58: `dElapsedJulianDays = dJulianDate - 2451545.0`. -/
def dElapsedJulianDays (t : Time) : ℚ :=
  dJulianDate t - 2451545

/-! ## Constants and records (source lines 9-23) -/

/-- Line 10: `Rad = math.Pi / 180.` -/
noncomputable def Rad : ℝ := Real.pi / 180

/-- Line 11: `EarthMeanRadius = 6371.01` (km). -/
noncomputable def EarthMeanRadius : ℝ := 6371.01

/-- Line 12: `AstronomicalUnit = 149597890` (km). -/
noncomputable def AstronomicalUnit : ℝ := 149597890

/-- Lines 15-18: `Location`, latitude and longitude in degrees. -/
structure Location where
  Latitude : ℝ
  Longitude : ℝ

/-- Lines 20-23: `SunCoordinates`, azimuth and zenith angle in degrees. -/
structure SunCoordinates where
  Azimuth : ℝ
  ZenithAngle : ℝ

/-- Go `math.Atan2(y, x)`: the angle of the point `(x, y)`, in `(-π, π]`, with
`Atan2(0, 0) = 0`. -/
noncomputable def atan2 (y x : ℝ) : ℝ :=
  Complex.arg ⟨x, y⟩

/-! ## Stage 2: ecliptic coordinates (source lines 70-74) -/

/-- Line 70: `dOmega`. -/
noncomputable def dOmega (d : ℝ) : ℝ :=
  2.1429 - 0.0010394594 * d

/-- Line 71: `dMeanLongitude`. -/
noncomputable def dMeanLongitude (d : ℝ) : ℝ :=
  4.8950630 + 0.017202791698 * d

/-- Line 72: `dMeanAnomaly`. -/
noncomputable def dMeanAnomaly (d : ℝ) : ℝ :=
  6.2400600 + 0.0172019699 * d

/-- Line 73: `dEclipticLongitude`. -/
noncomputable def dEclipticLongitude (d : ℝ) : ℝ :=
  dMeanLongitude d + 0.03341607 * Real.sin (dMeanAnomaly d)
    + 0.00034894 * Real.sin (2 * dMeanAnomaly d) - 0.0001134
    - 0.0000203 * Real.sin (dOmega d)

/-- Line 74: `dEclipticObliquity`. -/
noncomputable def dEclipticObliquity (d : ℝ) : ℝ :=
  0.4090928 - 6.2140e-9 * d + 0.0000396 * Real.cos (dOmega d)

/-! ## Stage 3: celestial coordinates (source lines 82-89) -/

/-- Lines 82-88: right ascension from ecliptic longitude and obliquity, with the
`if dRightAscension < 0.0` normalisation. -/
noncomputable def dRightAscension (eclLon obl : ℝ) : ℝ :=
  let dSin_EclipticLongitude := Real.sin eclLon
  let dY := Real.cos obl * dSin_EclipticLongitude
  let dX := Real.cos eclLon
  let ra := atan2 dY dX
  if ra < 0 then ra + 2 * Real.pi else ra

/-- Line 89: declination from ecliptic longitude and obliquity, in exact real arithmetic
(`Go.dDeclination` is the `float64` computation). -/
noncomputable def dDeclination (eclLon obl : ℝ) : ℝ :=
  Real.arcsin (Real.sin obl * Real.sin eclLon)

/-! ## Stage 4: local coordinates (source lines 104-121) -/

/-- Line 104: `dGreenwichMeanSiderealTime`. -/
noncomputable def dGreenwichMeanSiderealTime (d decimalHours : ℝ) : ℝ :=
  6.6974243242 + 0.0657098283 * d + decimalHours

/-- Line 105: `dLocalMeanSiderealTime`. -/
noncomputable def dLocalMeanSiderealTime (d decimalHours longitude : ℝ) : ℝ :=
  (dGreenwichMeanSiderealTime d decimalHours * 15 + longitude) * Rad

/-- Line 111: the argument handed to `math.Acos`. -/
noncomputable def zenithCosine (latRad hourAngle decl : ℝ) : ℝ :=
  Real.cos latRad * Real.cos hourAngle * Real.cos decl + Real.sin decl * Real.sin latRad

/-- Line 111: the zenith angle before the parallax correction, in radians, in exact real
arithmetic, where the argument always lies in the domain of `acos` (`Go.zenithRad` is the
`float64` computation, which can hand `math.Acos` a value above 1). -/
noncomputable def zenithRad (latRad hourAngle decl : ℝ) : ℝ :=
  Real.arccos (zenithCosine latRad hourAngle decl)

/-- Line 120: `dParallax` for a zenith angle in radians. -/
noncomputable def dParallax (zenith : ℝ) : ℝ :=
  (EarthMeanRadius / AstronomicalUnit) * Real.sin zenith

/-- Lines 112-117: the azimuth in radians, after the `if Azimuth < 0.0` normalisation, in
exact real arithmetic (`Go.azimuthRad` is the `float64` computation, where the addition
of `2*math.Pi` is rounded). -/
noncomputable def azimuthRad (latRad hourAngle decl : ℝ) : ℝ :=
  let dY := -Real.sin hourAngle
  let dX := Real.tan decl * Real.cos latRad - Real.sin latRad * Real.cos hourAngle
  let az := atan2 dY dX
  if az < 0 then az + 2 * Real.pi else az

/-- Lines 107-121: azimuth and zenith angle, in degrees, from the latitude in degrees,
the hour angle and the declination. -/
noncomputable def topocentric (latitude hourAngle decl : ℝ) : SunCoordinates :=
  let dLatitudeInRadians := latitude * Rad
  let zenith := zenithRad dLatitudeInRadians hourAngle decl
  { Azimuth := azimuthRad dLatitudeInRadians hourAngle decl / Rad
    ZenithAngle := (zenith + dParallax zenith) / Rad }

/-- Line 106: `dHourAngle = dLocalMeanSiderealTime - dRightAscension`, as a function of
the elapsed Julian days, the decimal hours and the longitude, in exact real arithmetic
(`Go.dHourAngle` is the `float64` computation). -/
noncomputable def dHourAngle (d decimalHours longitude : ℝ) : ℝ :=
  dLocalMeanSiderealTime d decimalHours longitude
    - dRightAscension (dEclipticLongitude d) (dEclipticObliquity d)

/-- The function `Sunpos` of the source (lines 25-124). -/
noncomputable def Sunpos (udtTime : Time) (udtLocation : Location) : SunCoordinates :=
  let d : ℝ := ((dElapsedJulianDays udtTime : ℚ) : ℝ)
  let h : ℝ := ((dDecimalHours udtTime : ℚ) : ℝ)
  topocentric udtLocation.Latitude (dHourAngle d h udtLocation.Longitude)
    (dDeclination (dEclipticLongitude d) (dEclipticObliquity d))

/-- Line 128 (commented-out `main`): the reference instant 2015-09-18T12:00:00 UTC. -/
def refTime : Time := Date 2015 9 18 12 0 0 0

/-- Line 129 (commented-out `main`): the reference location `Location{48.148, -11.573}`. -/
noncomputable def refLocation : Location := ⟨48.148, -11.573⟩

/-! ## The proleptic Gregorian calendar (reference side of the day-count claims) -/

/-- Gregorian leap-year rule. -/
def isLeapYear (y : Int) : Bool :=
  decide (y % 4 = 0 ∧ (y % 100 ≠ 0 ∨ y % 400 = 0))

/-- Length of month `m` of year `y` in the Gregorian calendar. -/
def daysInMonth (y m : Int) : Int :=
  if m = 2 then (if isLeapYear y then 29 else 28)
  else if m = 4 ∨ m = 6 ∨ m = 9 ∨ m = 11 then 30
  else 31

/-- A valid Gregorian date with year in `1..9999`. -/
def validDate (y m d : Int) : Prop :=
  1 ≤ y ∧ y ≤ 9999 ∧ 1 ≤ m ∧ m ≤ 12 ∧ 1 ≤ d ∧ d ≤ daysInMonth y m

instance (y m d : Int) : Decidable (validDate y m d) := by
  unfold validDate; infer_instance

/-- The calendar day after `(y, m, d)`, carrying across month and year ends. -/
def nextDay (y m d : Int) : Int × Int × Int :=
  if d < daysInMonth y m then (y, m, d + 1)
  else if m < 12 then (y, m + 1, 1)
  else (y + 1, 1, 1)

/-! ## IEEE-754 binary64 arithmetic (Go `float64`)

The second embedding reads the source as the Go compiler does on amd64: every `float64`
operation is rounded to nearest, ties to even, with no fused multiply-add, and the
functions of package `math` are the pure-Go kernels of the Go standard library. -/

/-- An IEEE-754 binary64 value. `fin neg n` is the finite number `(-1)^neg * n * 2^(-1074)`:
every finite `float64` is such a multiple, with `n` below `2^2098` and at most 53
significant bits; `fin true 0` is the negative zero. -/
inductive F64 where
  | fin (neg : Bool) (n : Nat)
  | inf (neg : Bool)
  | nan
  deriving DecidableEq, Repr

namespace F64

/-- Position of the leading bit of `n` (0 for `n = 0`), for `n` below `2^8192`. -/
def ilog2 (n : Nat) : Nat :=
  [4096, 2048, 1024, 512, 256, 128, 64, 32, 16, 8, 4, 2, 1].foldl
    (fun acc k => if 2 ^ (acc + k) ≤ n then acc + k else acc) 0

/-- Rounding to nearest, ties to even: the `float64` nearest to `num / den` units of
`2^(-1074)`, with sign `neg`; overflow gives an infinity. -/
def roundQ (neg : Bool) (num den : Nat) : F64 :=
  let q0 := num / den
  let s := if q0 < 2 ^ 53 then 0 else ilog2 q0 - 52
  let u := 2 ^ s
  let q1 := q0 / u
  let r2 := 2 * (num - q1 * u * den)
  let ud := u * den
  let q := if r2 < ud then q1 else if ud < r2 then q1 + 1 else if q1 % 2 = 0 then q1 else q1 + 1
  let n := q * u
  if 2 ^ 2098 ≤ n then F64.inf neg else F64.fin neg n

/-- The `float64` nearest to the decimal `m * 10^e` (`e` negated when `s` is true): the
value of a Go floating-point literal. -/
def ofScientific (m : Nat) (s : Bool) (e : Nat) : F64 :=
  if s then roundQ false (m * 2 ^ 1074) (10 ^ e) else roundQ false (m * 10 ^ e * 2 ^ 1074) 1

/-- Go `float64(n)` for a non-negative integer. -/
def ofNat (n : Nat) : F64 := roundQ false (n * 2 ^ 1074) 1

/-- Go `float64(z)` for an `int`. -/
def ofInt : Int → F64
  | Int.ofNat n => roundQ false (n * 2 ^ 1074) 1
  | Int.negSucc n => roundQ true ((n + 1) * 2 ^ 1074) 1

/-- Go `math.Float64frombits`. -/
def ofBits (b : Nat) : F64 :=
  let s := decide (b / 2 ^ 63 % 2 = 1)
  let e := b / 2 ^ 52 % 2048
  let m := b % 2 ^ 52
  if e = 2047 then (if m = 0 then inf s else nan)
  else if e = 0 then fin s m
  else fin s ((2 ^ 52 + m) * 2 ^ (e - 1))

/-- The exact value of a finite `float64` as a rational number (0 for infinities and NaN). -/
def toRat : F64 → ℚ
  | fin s n => (if s then -1 else 1) * ((n : ℚ) / 2 ^ 1074)
  | _ => 0

/-- Unary minus. -/
def neg : F64 → F64
  | fin s n => fin (!s) n
  | inf s => inf (!s)
  | nan => nan

/-- Go `math.Abs`. -/
def abs : F64 → F64
  | fin _ n => fin false n
  | inf _ => inf false
  | nan => nan

/-- Go `math.IsNaN`. -/
def isNaN : F64 → Bool
  | nan => true
  | _ => false

/-- Go `math.IsInf(x, 0)`. -/
def isInf : F64 → Bool
  | inf _ => true
  | _ => false

/-- Go `math.Signbit`. -/
def signbit : F64 → Bool
  | fin s _ => s
  | inf s => s
  | nan => false

/-- Go `math.Copysign(x, y)`. -/
def copysign (x y : F64) : F64 :=
  match x with
  | fin _ n => fin (signbit y) n
  | inf _ => inf (signbit y)
  | nan => nan

/-- Addition of two `float64`. -/
def add : F64 → F64 → F64
  | fin s a, fin t b =>
    if s = t then roundQ s (a + b) 1
    else if b < a then roundQ s (a - b) 1
    else if a < b then roundQ t (b - a) 1
    else fin false 0
  | fin _ _, inf t => inf t
  | inf s, fin _ _ => inf s
  | inf s, inf t => if s = t then inf s else nan
  | _, _ => nan

/-- Subtraction of two `float64`. -/
def sub (x y : F64) : F64 := add x (neg y)

/-- Multiplication of two `float64`. -/
def mul : F64 → F64 → F64
  | fin s a, fin t b => roundQ (xor s t) (a * b) (2 ^ 1074)
  | fin s a, inf t => if a = 0 then nan else inf (xor s t)
  | inf s, fin t b => if b = 0 then nan else inf (xor s t)
  | inf s, inf t => inf (xor s t)
  | _, _ => nan

/-- Division of two `float64`. -/
def div : F64 → F64 → F64
  | fin s a, fin t b =>
    if b = 0 then (if a = 0 then nan else inf (xor s t))
    else roundQ (xor s t) (a * 2 ^ 1074) b
  | fin s _, inf t => fin (xor s t) 0
  | inf s, fin t _ => inf (xor s t)
  | _, _ => nan

/-- Newton iteration for the integer square root, started above the root. -/
def isqrtAux : Nat → Nat → Nat → Nat
  | 0, _, x => x
  | fuel + 1, n, x =>
    let y := (x + n / x) / 2
    if y < x then isqrtAux fuel n y else x

/-- Integer square root: the largest `r` with `r * r ≤ n`. -/
def isqrt (n : Nat) : Nat :=
  if n = 0 then 0 else isqrtAux (ilog2 n + 2) n (2 ^ (ilog2 n / 2 + 1))

/-- Go `math.Sqrt`: the correctly rounded square root. -/
def sqrt : F64 → F64
  | fin s n =>
    if n = 0 then fin s 0
    else if s then nan
    else
      let r := isqrt (n * 2 ^ 1074)
      roundQ false (2 * r + (if r * r = n * 2 ^ 1074 then 0 else 1)) 2
  | inf s => if s then nan else inf false
  | nan => nan

/-- Comparison `x < y` of two `float64` (false when either is NaN). -/
def lt : F64 → F64 → Bool
  | nan, _ => false
  | _, nan => false
  | fin s a, fin t b =>
    if s then (if t then decide (b < a) else decide (0 < a ∨ 0 < b))
    else (if t then false else decide (a < b))
  | fin _ _, inf t => !t
  | inf s, fin _ _ => s
  | inf s, inf t => s && !t

/-- Comparison `x == y` of two `float64` (false when either is NaN; the two zeros are
equal). -/
def eq : F64 → F64 → Bool
  | fin s a, fin t b => decide (a = b) && (decide (a = 0) || decide (s = t))
  | inf s, inf t => decide (s = t)
  | _, _ => false

/-- Comparison `x <= y`. -/
def le (x y : F64) : Bool := lt x y || eq x y

/-- Comparison `x > y`. -/
def gt (x y : F64) : Bool := lt y x

/-- Comparison `x >= y`. -/
def ge (x y : F64) : Bool := le y x

/-- Go `uint64(x)` for a `float64` in `[0, 2^64)`: truncation toward zero (0 outside that
range, where Go leaves the result to the implementation). -/
def toUint64 : F64 → Nat
  | fin false n => if n / 2 ^ 1074 < 2 ^ 64 then n / 2 ^ 1074 else 0
  | _ => 0

instance : Add F64 := ⟨add⟩
instance : Sub F64 := ⟨sub⟩
instance : Mul F64 := ⟨mul⟩
instance : Div F64 := ⟨div⟩
instance : Neg F64 := ⟨neg⟩
instance : OfScientific F64 := ⟨ofScientific⟩
instance (n : Nat) : OfNat F64 n := ⟨ofNat n⟩

end F64

/-! ## Package `math` of the Go standard library on `float64`

Go's `math` package is not part of the repository; these definitions follow its pure-Go
kernels (`sin.go`, `tan.go`, `atan.go`, `asin.go`, `atan2.go`, `trig_reduce.go`), which
are the ones compiled on amd64. -/

namespace Go

open F64

/-- Go `math.Float64bits`. -/
def Float64bits : F64 → Nat
  | fin s n =>
    (if s then 2 ^ 63 else 0)
      + (if n < 2 ^ 52 then n
          else (ilog2 n - 51) * 2 ^ 52 + (n / 2 ^ (ilog2 n - 52) - 2 ^ 52))
  | inf s => (if s then 2 ^ 63 else 0) + 0x7FF0000000000000
  | nan => 0x7FF8000000000001

/-- The digits of the untyped constant `math.Pi`, scaled by `10^62`. -/
def PiDigits : Nat := 314159265358979323846264338327950288419716939937510582097494459

/-- The `float64` value of the constant expression `math.Pi * a / b`: Go evaluates
constant expressions exactly and rounds once. -/
def piConst (a b : Nat) : F64 := roundQ false (PiDigits * a * 2 ^ 1074) (10 ^ 62 * b)

/-- The constant `math.Pi` as a `float64`. -/
def Pi : F64 := piConst 1 1

/-- The constant expression `4 / Pi` of `sin.go` and `tan.go` as a `float64`. -/
def fourOverPi : F64 := roundQ false (4 * 10 ^ 62 * 2 ^ 1074) PiDigits

/-- First Cody-Waite part of `Pi/4` (`PI4A` of `sin.go`). -/
def PI4A : F64 := 7.85398125648498535156e-1

/-- Second Cody-Waite part of `Pi/4` (`PI4B` of `sin.go`). -/
def PI4B : F64 := 3.77489470793079817668e-8

/-- Third Cody-Waite part of `Pi/4` (`PI4C` of `sin.go`). -/
def PI4C : F64 := 2.69515142907905952645e-15

/-- The threshold `reduceThreshold = 1 << 29` of `trig_reduce.go`. -/
def reduceThreshold : F64 := ofNat (2 ^ 29)

/-- The table `mPi4` of `trig_reduce.go`: the binary digits of `4/Pi` in 64-bit words. -/
def mPi4 : List Nat :=
  [0x0000000000000001, 0x45f306dc9c882a53, 0xf84eafa3ea69bb81, 0xb6c52b3278872083,
   0xfca2c757bd778ac3, 0x6e48dc74849ba5c0, 0x0c925dd413a32439, 0xfc3bd63962534e7d,
   0xd1046bea5d768909, 0xd338e04d68befc82, 0x7323ac7306a673e9, 0x3908bf177bf25076,
   0x3ff12fffbc0b301f, 0xde5e2316b414da3e, 0xda6cfd9e4f96136e, 0x9e8c7ecd3cbfd45a,
   0xea4f758fd7cbe2f6, 0x7a0e73ef14a525d4, 0xd7f6bf623f1aba10, 0xac06608df8f6d757]

/-- Left shift of a `uint64` (a shift count of 64 or more gives 0). -/
def shl64 (a k : Nat) : Nat := if 64 ≤ k then 0 else a * 2 ^ k % 2 ^ 64

/-- Right shift of a `uint64` (a shift count of 64 or more gives 0). -/
def shr64 (a k : Nat) : Nat := if 64 ≤ k then 0 else a / 2 ^ k

/-- Go `bits.LeadingZeros64`. -/
def LeadingZeros64 (a : Nat) : Nat := if a = 0 then 64 else 63 - ilog2 a

/-- Go `trigReduce` of `trig_reduce.go`: Payne-Hanek reduction by `Pi/4` for `x > 0`,
returning the octant `j` and the reduced argument. -/
def trigReduce (x : F64) : Nat × F64 :=
  if lt x (piConst 1 4) then (0, x)
  else
    let bits := Float64bits x
    let e := bits / 2 ^ 52 % 2048
    let ix := bits % 2 ^ 52 + 2 ^ 52
    let digit := (e + 61 - 1075) / 64
    let bitshift := (e + 61 - 1075) % 64
    let z0 := shl64 (mPi4.getD digit 0) bitshift ||| shr64 (mPi4.getD (digit + 1) 0) (64 - bitshift)
    let z1 := shl64 (mPi4.getD (digit + 1) 0) bitshift
      ||| shr64 (mPi4.getD (digit + 2) 0) (64 - bitshift)
    let z2 := shl64 (mPi4.getD (digit + 2) 0) bitshift
      ||| shr64 (mPi4.getD (digit + 3) 0) (64 - bitshift)
    let z2hi := z2 * ix / 2 ^ 64
    let z1hi := z1 * ix / 2 ^ 64
    let z1lo := z1 * ix % 2 ^ 64
    let z0lo := z0 * ix % 2 ^ 64
    let lo := (z1lo + z2hi) % 2 ^ 64
    let c := (z1lo + z2hi) / 2 ^ 64
    let hi := (z0lo + z1hi + c) % 2 ^ 64
    let j := hi / 2 ^ 61
    let hi1 := shl64 hi 3 ||| shr64 lo 61
    let lz := LeadingZeros64 hi1
    let ex := 1023 - (lz + 1)
    let hi2 := shl64 hi1 (lz + 1) ||| (if 64 < lz + 1 then 0 else shr64 lo (64 - (lz + 1)))
    let hi3 := hi2 / 2 ^ 12 ||| ex * 2 ^ 52
    let z := ofBits hi3
    if j % 2 = 1 then ((j + 1) % 8, (z - 1) * piConst 1 4)
    else (j, z * piConst 1 4)

/-- The Cody-Waite reduction shared by the kernels of `sin.go` and `tan.go` for
`0 ≤ x < reduceThreshold`: the octant count (odd counts moved up by one) and the reduced
argument `((x - y*PI4A) - y*PI4B) - y*PI4C`. -/
def codyWaite (x : F64) : Nat × F64 :=
  let j := toUint64 (x * fourOverPi)
  let y := ofNat j
  let j1 := if j % 2 = 1 then j + 1 else j
  let y1 := if j % 2 = 1 then y + 1 else y
  (j1, ((x - y1 * PI4A) - y1 * PI4B) - y1 * PI4C)

/-- The polynomial `_sin` of `sin.go` on the reduced argument `z`, with `zz = z*z`. -/
def sinKernel (z zz : F64) : F64 :=
  z + z * zz * ((((((1.58962301576546568060e-10 * zz) + -2.50507477628578072866e-8) * zz
    + 2.75573136213857245213e-6) * zz + -1.98412698295895385996e-4) * zz
    + 8.33333333332211858878e-3) * zz + -1.66666666666666307295e-1)

/-- The polynomial `_cos` of `sin.go` on `zz = z*z`. -/
def cosKernel (zz : F64) : F64 :=
  1.0 - 0.5 * zz + zz * zz * ((((((-1.13585365213876817300e-11 * zz)
    + 2.08757008419747316778e-9) * zz + -2.75573141792967388112e-7) * zz
    + 2.48015872888517045348e-5) * zz + -1.38888888888730564116e-3) * zz
    + 4.16666666666665929218e-2)

/-- Go `math.Sin` (function `sin` of `sin.go`). -/
def Sin (x0 : F64) : F64 :=
  if eq x0 0 || isNaN x0 then x0
  else if isInf x0 then nan
  else
    let sign := lt x0 0
    let x := if lt x0 0 then -x0 else x0
    let jz := if ge x reduceThreshold then trigReduce x
      else ((codyWaite x).1 % 8, (codyWaite x).2)
    let sign1 := if 3 < jz.1 then !sign else sign
    let j := if 3 < jz.1 then jz.1 - 4 else jz.1
    let z := jz.2
    let zz := z * z
    let y := if j = 1 ∨ j = 2 then cosKernel zz else sinKernel z zz
    if sign1 then -y else y

/-- Go `math.Cos` (function `cos` of `sin.go`). -/
def Cos (x0 : F64) : F64 :=
  if isNaN x0 || isInf x0 then nan
  else
    let x := abs x0
    let jz := if ge x reduceThreshold then trigReduce x
      else ((codyWaite x).1 % 8, (codyWaite x).2)
    let sign1 := 3 < jz.1
    let j := if 3 < jz.1 then jz.1 - 4 else jz.1
    let sign2 := if 1 < j then !sign1 else sign1
    let z := jz.2
    let zz := z * z
    let y := if j = 1 ∨ j = 2 then sinKernel z zz else cosKernel zz
    if sign2 then -y else y

/-- Go `math.Tan` (function `tan` of `tan.go`). -/
def Tan (x0 : F64) : F64 :=
  if eq x0 0 || isNaN x0 then x0
  else if isInf x0 then nan
  else
    let sign := lt x0 0
    let x := if lt x0 0 then -x0 else x0
    let jz := if ge x reduceThreshold then trigReduce x else codyWaite x
    let z := jz.2
    let zz := z * z
    let y := if gt zz 1e-14 then
        z + z * (zz * (((-1.30936939181383777646e4 * zz) + 1.15351664838587416140e6) * zz
          + -1.79565251976484877988e7)
          / ((((zz + 1.36812963470692954678e4) * zz + -1.32089234440210967447e6) * zz
            + 2.50083801823357915839e7) * zz + -5.38695755929454629881e7))
      else z
    let y1 := if jz.1 / 2 % 2 = 1 then (-1 : F64) / y else y
    if sign then -y1 else y1

/-- Go `xatan` of `atan.go`: the series on `[0, 0.66]`. -/
def xatan (x : F64) : F64 :=
  let z := x * x
  let z1 := z * ((((-8.750608600031904122785e-01 * z + -1.615753718733365076637e+01) * z
      + -7.500855792314704667340e+01) * z + -1.228866684490136173410e+02) * z
      + -6.485021904942025371773e+01)
    / (((((z + 2.485846490142306297962e+01) * z + 1.650270098316988542046e+02) * z
      + 4.328810604912902668951e+02) * z + 4.853903996359136964868e+02) * z
      + 1.945506571482613964425e+02)
  x * z1 + x

/-- The constant `Morebits` of `atan.go`. -/
def Morebits : F64 := 6.123233995736765886130e-17

/-- The constant expression `0.5 * Morebits` of `atan.go`. -/
def halfMorebits : F64 := 3.061616997868382943065e-17

/-- Go `satan` of `atan.go`: reduction of a positive argument to `[0, 0.66]`. -/
def satan (x : F64) : F64 :=
  if le x 0.66 then xatan x
  else if gt x 2.41421356237309504880 then piConst 1 2 - xatan (1 / x) + Morebits
  else piConst 1 4 + xatan ((x - 1) / (x + 1)) + halfMorebits

/-- Go `math.Atan` (function `atan` of `atan.go`). -/
def Atan (x : F64) : F64 :=
  if eq x 0 then x
  else if gt x 0 then satan x
  else -satan (-x)

/-- Go `math.Atan2` (function `atan2` of `atan2.go`). -/
def Atan2 (y x : F64) : F64 :=
  if isNaN x || isNaN y then nan
  else if eq y 0 then
    (if ge x 0 && !signbit x then copysign 0 y else copysign Pi y)
  else if eq x 0 then copysign (piConst 1 2) y
  else if isInf x then
    (if !signbit x then (if isInf y then copysign (piConst 1 4) y else copysign 0 y)
      else (if isInf y then copysign (piConst 3 4) y else copysign Pi y))
  else if isInf y then copysign (piConst 1 2) y
  else
    let q := Atan (y / x)
    if lt x 0 then (if le q 0 then q + Pi else q - Pi) else q

/-- Go `math.Sqrt`. -/
def Sqrt (x : F64) : F64 := sqrt x

/-- Go `math.Asin` (function `asin` of `asin.go`). -/
def Asin (x0 : F64) : F64 :=
  if eq x0 0 then x0
  else
    let sign := lt x0 0
    let x := if lt x0 0 then -x0 else x0
    if gt x 1 then nan
    else
      let temp := Sqrt (1 - x * x)
      let temp1 := if gt x 0.7 then piConst 1 2 - satan (temp / x) else satan (x / temp)
      if sign then -temp1 else temp1

/-- Go `math.Acos` (function `acos` of `asin.go`): `Pi/2 - Asin(x)`. -/
def Acos (x : F64) : F64 := piConst 1 2 - Asin x

/-! ## `Sunpos` on `float64` (source lines 9-124) -/

/-- Line 10: `Rad float64 = math.Pi / 180.` -/
def Rad : F64 := piConst 1 180

/-- Line 11: `EarthMeanRadius float64 = 6371.01`. -/
def EarthMeanRadius : F64 := 6371.01

/-- Line 12: `AstronomicalUnit float64 = 149597890`. -/
def AstronomicalUnit : F64 := 149597890

/-- Lines 15-18: `Location`. -/
structure Location where
  Latitude : F64
  Longitude : F64
  deriving DecidableEq

/-- Lines 20-23: `SunCoordinates`. -/
structure SunCoordinates where
  Azimuth : F64
  ZenithAngle : F64
  deriving DecidableEq

/-- Line 52: `dDecimalHours`. -/
def dDecimalHours (t : Time) : F64 :=
  ofInt t.Hour + (ofInt t.Minute + ofInt t.Second / 60.0) / 60.0

/-- Line 56: `dJulianDate`. -/
def dJulianDate (t : Time) : F64 :=
  ofInt (liAux2 t.Year t.Month t.Day) - 0.5 + dDecimalHours t / 24.0

/-- Line 58: `dElapsedJulianDays`. -/
def dElapsedJulianDays (t : Time) : F64 :=
  dJulianDate t - 2451545.0

/-- Line 70: `dOmega`. -/
def dOmega (d : F64) : F64 :=
  2.1429 - 0.0010394594 * d

/-- Line 71: `dMeanLongitude`. -/
def dMeanLongitude (d : F64) : F64 :=
  4.8950630 + 0.017202791698 * d

/-- Line 72: `dMeanAnomaly`. -/
def dMeanAnomaly (d : F64) : F64 :=
  6.2400600 + 0.0172019699 * d

/-- Line 73: `dEclipticLongitude`. -/
def dEclipticLongitude (d : F64) : F64 :=
  dMeanLongitude d + 0.03341607 * Sin (dMeanAnomaly d)
    + 0.00034894 * Sin (2 * dMeanAnomaly d) - 0.0001134
    - 0.0000203 * Sin (dOmega d)

/-- Line 74: `dEclipticObliquity`. -/
def dEclipticObliquity (d : F64) : F64 :=
  0.4090928 - 6.2140e-9 * d + 0.0000396 * Cos (dOmega d)

/-- Lines 82-88: `dRightAscension`, with the `if dRightAscension < 0.0` normalisation. -/
def dRightAscension (eclLon obl : F64) : F64 :=
  let dSin_EclipticLongitude := Sin eclLon
  let dY := Cos obl * dSin_EclipticLongitude
  let dX := Cos eclLon
  let ra := Atan2 dY dX
  if lt ra 0.0 then ra + piConst 2 1 else ra

/-- Line 89: `dDeclination`. -/
def dDeclination (eclLon obl : F64) : F64 :=
  Asin (Sin obl * Sin eclLon)

/-- Line 104: `dGreenwichMeanSiderealTime`. -/
def dGreenwichMeanSiderealTime (d decimalHours : F64) : F64 :=
  6.6974243242 + 0.0657098283 * d + decimalHours

/-- Line 105: `dLocalMeanSiderealTime`. -/
def dLocalMeanSiderealTime (d decimalHours longitude : F64) : F64 :=
  (dGreenwichMeanSiderealTime d decimalHours * 15 + longitude) * Rad

/-- Line 106: `dHourAngle`. -/
def dHourAngle (d decimalHours longitude : F64) : F64 :=
  dLocalMeanSiderealTime d decimalHours longitude
    - dRightAscension (dEclipticLongitude d) (dEclipticObliquity d)

/-- Line 111: the argument handed to `math.Acos`. -/
def zenithCosine (latRad hourAngle decl : F64) : F64 :=
  Cos latRad * Cos hourAngle * Cos decl + Sin decl * Sin latRad

/-- Line 111: the zenith angle before the parallax correction. -/
def zenithRad (latRad hourAngle decl : F64) : F64 :=
  Acos (zenithCosine latRad hourAngle decl)

/-- Line 120: `dParallax`. -/
def dParallax (zenith : F64) : F64 :=
  (EarthMeanRadius / AstronomicalUnit) * Sin zenith

/-- Lines 112-117: the azimuth in radians after the `if Azimuth < 0.0` normalisation. -/
def azimuthRad (latRad hourAngle decl : F64) : F64 :=
  let dY := -Sin hourAngle
  let dX := Tan decl * Cos latRad - Sin latRad * Cos hourAngle
  let az := Atan2 dY dX
  if lt az 0.0 then az + piConst 2 1 else az

/-- Lines 107-121: azimuth and zenith angle in degrees from the latitude in degrees,
the hour angle and the declination. -/
def topocentric (latitude hourAngle decl : F64) : SunCoordinates :=
  let dLatitudeInRadians := latitude * Rad
  let zenith := zenithRad dLatitudeInRadians hourAngle decl
  { Azimuth := azimuthRad dLatitudeInRadians hourAngle decl / Rad
    ZenithAngle := (zenith + dParallax zenith) / Rad }

/-- The function `Sunpos` of the source (lines 25-124) on `float64`. -/
def Sunpos (udtTime : Time) (udtLocation : Location) : SunCoordinates :=
  let d := dElapsedJulianDays udtTime
  let h := dDecimalHours udtTime
  topocentric udtLocation.Latitude (dHourAngle d h udtLocation.Longitude)
    (dDeclination (dEclipticLongitude d) (dEclipticObliquity d))

end Go

/-! ## Lemmas on the calendar stage -/

theorem liAux1_of_le_two {m : Int} (h1 : 1 ≤ m) (h2 : m ≤ 2) : liAux1 m = -1 := by
  have : m = 1 ∨ m = 2 := by omega
  rcases this with rfl | rfl <;> decide

theorem liAux1_of_three_le {m : Int} (h1 : 3 ≤ m) (h2 : m ≤ 12) : liAux1 m = 0 := by
  have : m = 3 ∨ m = 4 ∨ m = 5 ∨ m = 6 ∨ m = 7 ∨ m = 8 ∨ m = 9 ∨ m = 10 ∨ m = 11 ∨ m = 12 := by
    omega
  rcases this with rfl | rfl | rfl | rfl | rfl | rfl | rfl | rfl | rfl | rfl <;> decide

/-- For January and February of a year from `-4798` on, every truncating division in
`liAux2` has non-negative operands and agrees with floor division. -/
theorem liAux2_early {y m d : Int} (hy : -4798 ≤ y) (h1 : 1 ≤ m) (h2 : m ≤ 2) :
    liAux2 y m d = (1461 * (y + 4799)) / 4 + (367 * (m + 10)) / 12
      - (3 * ((y + 4899) / 100)) / 4 + d - 32075 := by
  unfold liAux2
  rw [liAux1_of_le_two h1 h2]
  have e1 : y + 4800 + -1 = y + 4799 := by ring
  have e2 : m - 2 - 12 * -1 = m + 10 := by ring
  have e3 : y + 4900 + -1 = y + 4899 := by ring
  rw [e1, e2, e3]
  rw [Int.tdiv_eq_ediv (by omega) (by omega), Int.tdiv_eq_ediv (by omega) (by omega),
    Int.tdiv_eq_ediv (a := y + 4899) (by omega) (by omega),
    Int.tdiv_eq_ediv (by omega) (by omega)]

/-- For March to December of a year from `-4799` on, every truncating division in
`liAux2` has non-negative operands and agrees with floor division. -/
theorem liAux2_late {y m d : Int} (hy : -4799 ≤ y) (h1 : 3 ≤ m) (h2 : m ≤ 12) :
    liAux2 y m d = (1461 * (y + 4800)) / 4 + (367 * (m - 2)) / 12
      - (3 * ((y + 4900) / 100)) / 4 + d - 32075 := by
  unfold liAux2
  rw [liAux1_of_three_le h1 h2]
  have e1 : y + 4800 + 0 = y + 4800 := by ring
  have e2 : m - 2 - 12 * 0 = m - 2 := by ring
  have e3 : y + 4900 + 0 = y + 4900 := by ring
  rw [e1, e2, e3]
  rw [Int.tdiv_eq_ediv (by omega) (by omega), Int.tdiv_eq_ediv (by omega) (by omega),
    Int.tdiv_eq_ediv (a := y + 4900) (by omega) (by omega),
    Int.tdiv_eq_ediv (by omega) (by omega)]

/-- One more year adds 365 or 366 days to the year term of `liAux2`. -/
theorem year_term_step (n : Int) :
    1461 * (n + 1) / 4 = 1461 * n / 4 + (if (n + 1) % 4 = 0 then 366 else 365) := by
  have h : n % 4 = 0 ∨ n % 4 = 1 ∨ n % 4 = 2 ∨ n % 4 = 3 := by omega
  split_ifs with h4 <;> rcases h with h | h | h | h <;> omega

/-- The century correction of `liAux2` grows by one at each century boundary, except at
every fourth one. -/
theorem century_term_step (n : Int) :
    3 * ((n + 1) / 100) / 4
      = 3 * (n / 100) / 4 + (if (n + 1) % 100 = 0 ∧ (n + 1) % 400 ≠ 100 then 1 else 0) := by
  by_cases h100 : (n + 1) % 100 = 0
  · have e : (n + 1) / 100 = n / 100 + 1 := by omega
    have h : (n / 100) % 4 = 0 ∨ (n / 100) % 4 = 1 ∨ (n / 100) % 4 = 2 ∨ (n / 100) % 4 = 3 := by
      omega
    rw [e]
    split_ifs with h4 <;> rcases h with h | h | h | h <;> omega
  · have e : (n + 1) / 100 = n / 100 := by omega
    rw [e, if_neg (fun h => h100 h.1)]
    omega

/-! ## Claims on the calendar stage -/

/-- C3: at 2000-01-01T12:00:00 UTC the integer `liAux2` is 2451545, the Julian date is
2451545.0 and the elapsed Julian days are exactly 0. -/
theorem epoch_noon_elapsed_zero :
    liAux2 2000 1 1 = 2451545
      ∧ dJulianDate (Date 2000 1 1 12 0 0 0) = 2451545
      ∧ dElapsedJulianDays (Date 2000 1 1 12 0 0 0) = 0 := by
  have h : liAux2 2000 1 1 = 2451545 := by decide
  refine ⟨h, ?_, ?_⟩ <;>
    norm_num [dElapsedJulianDays, dJulianDate, dDecimalHours, Date, h]

/-- C4: at 2000-01-01T00:00:00 UTC (a month `≤ 2`) the elapsed Julian days are exactly
`-0.5`, that is, the Julian date is 2451544.5. -/
theorem epoch_midnight_elapsed :
    dElapsedJulianDays (Date 2000 1 1 0 0 0 0) = -(1 / 2)
      ∧ dJulianDate (Date 2000 1 1 0 0 0 0) = 2451544 + 1 / 2 := by
  have h : liAux2 2000 1 1 = 2451545 := by decide
  constructor <;> norm_num [dElapsedJulianDays, dJulianDate, dDecimalHours, Date, h]

/-- C5: `liAux2` is a continuous day count over the Gregorian calendar: for every valid
date with year in `1..9999`, the value at the calendar's next day (across month ends,
year ends and 29 February) is the value at that date plus 1. -/
theorem liAux2_nextDay (y m d : Int) (h : validDate y m d) :
    liAux2 (nextDay y m d).1 (nextDay y m d).2.1 (nextDay y m d).2.2
      = liAux2 y m d + 1 := by
  obtain ⟨hy1, hy2, hm1, hm2, hd1, hd2⟩ := h
  by_cases hd : d < daysInMonth y m
  · -- same month
    simp only [nextDay, if_pos hd]
    unfold liAux2
    ring
  · have hdm : d = daysInMonth y m := by omega
    clear hd2
    by_cases hm : m < 12
    · simp only [nextDay, if_neg hd, if_pos hm]
      clear hd
      have hcases : m = 1 ∨ m = 2 ∨ (3 ≤ m ∧ m ≤ 11) := by omega
      rcases hcases with rfl | rfl | ⟨h3, h11⟩
      · -- 31 January to 1 February
        have hd31 : d = 31 := by rw [hdm]; simp [daysInMonth]
        rw [liAux2_early (by omega) (by norm_num) (by norm_num),
          liAux2_early (by omega) (by norm_num) (by norm_num), hd31]
        omega
      · -- end of February to 1 March
        rw [liAux2_late (by omega) (by norm_num) (by norm_num),
          liAux2_early (by omega) (by norm_num) (by norm_num)]
        have hY := year_term_step (y + 4799)
        have hC := century_term_step (y + 4899)
        have e1 : y + 4799 + 1 = y + 4800 := by ring
        have e2 : y + 4899 + 1 = y + 4900 := by ring
        rw [e1] at hY
        rw [e2] at hC
        rw [hY, hC]
        by_cases hl : y % 4 = 0 ∧ (y % 100 ≠ 0 ∨ y % 400 = 0)
        · have hd29 : d = 29 := by
            rw [hdm]; simp only [daysInMonth, isLeapYear, hl]; simp
          subst hd29
          clear hdm hY hC
          split_ifs <;> omega
        · have hd28 : d = 28 := by
            rw [hdm]; simp only [daysInMonth, isLeapYear, hl]; simp
          subst hd28
          clear hdm hY hC
          split_ifs <;> omega
      · -- end of March .. November
        rw [liAux2_late (by omega) (by omega) (by omega),
          liAux2_late (by omega) (by omega) (by omega)]
        have hne : m ≠ 2 := by omega
        simp only [daysInMonth, if_neg hne] at hdm
        have hmc : m = 3 ∨ m = 4 ∨ m = 5 ∨ m = 6 ∨ m = 7 ∨ m = 8 ∨ m = 9 ∨ m = 10 ∨ m = 11 := by
          omega
        rcases hmc with rfl | rfl | rfl | rfl | rfl | rfl | rfl | rfl | rfl <;>
          norm_num at hdm <;> subst hdm <;> omega
    · -- 31 December to 1 January
      have hm12 : m = 12 := by omega
      subst hm12
      simp only [nextDay, if_neg hd, if_neg hm]
      have hd31 : d = 31 := by rw [hdm]; simp [daysInMonth]
      subst hd31
      clear hd hdm
      rw [liAux2_early (by omega) (by norm_num) (by norm_num),
        liAux2_late (by omega) (by norm_num) (by norm_num)]
      have e1 : y + 1 + 4799 = y + 4800 := by ring
      have e2 : y + 1 + 4899 = y + 4900 := by ring
      rw [e1, e2]
      omega

/-- Witness for C5: 28 February 1900 (not a leap year) is followed by 1 March 1900. -/
theorem liAux2_nextDay_witness :
    validDate 1900 2 28 ∧ nextDay 1900 2 28 = (1900, 3, 1)
      ∧ liAux2 (nextDay 1900 2 28).1 (nextDay 1900 2 28).2.1 (nextDay 1900 2 28).2.2
          = liAux2 1900 2 28 + 1 :=
  ⟨by decide, by decide, liAux2_nextDay 1900 2 28 (by decide)⟩

/-- C10: `liAux1 = (month - 14) / 12` truncates toward zero: it is `-1` for months 1 and
2 and `0` for months 3 to 12, whereas floor division gives `-2` for month 1 and `-1`
for months 3 to 12. -/
theorem liAux1_truncates :
    liAux1 1 = -1 ∧ liAux1 2 = -1
      ∧ (∀ m : Int, 3 ≤ m → m ≤ 12 → liAux1 m = 0)
      ∧ Int.fdiv (1 - 14) 12 = -2
      ∧ (∀ m : Int, 3 ≤ m → m ≤ 12 → Int.fdiv (m - 14) 12 = -1) := by
  refine ⟨by decide, by decide, fun m h1 h2 => liAux1_of_three_le h1 h2, by decide, ?_⟩
  intro m h1 h2
  have : m = 3 ∨ m = 4 ∨ m = 5 ∨ m = 6 ∨ m = 7 ∨ m = 8 ∨ m = 9 ∨ m = 10 ∨ m = 11 ∨ m = 12 := by
    omega
  rcases this with rfl | rfl | rfl | rfl | rfl | rfl | rfl | rfl | rfl | rfl <;> decide

/-- C7 (as the code behaves): the decimal hours are `hour + (minute + second/60)/60` with
`second` the whole seconds returned by `Second()`; the sub-second part of the instant is
never read, so an instant and the same instant truncated to the whole second have the
same decimal hours and the same elapsed Julian days. -/
theorem subsecond_ignored (t : Time) :
    dDecimalHours t = (t.Hour : ℚ) + ((t.Minute : ℚ) + (t.Second : ℚ) / 60) / 60
      ∧ dDecimalHours t = dDecimalHours t.truncateSecond
      ∧ dElapsedJulianDays t = dElapsedJulianDays t.truncateSecond :=
  ⟨rfl, rfl, rfl⟩

/-- C7 fails as stated: 2015-09-18T12:00:00.5 UTC has a non-zero sub-second part and yet
the same decimal hours and elapsed Julian days as 2015-09-18T12:00:00 UTC. -/
theorem subsecond_counterexample :
    (Date 2015 9 18 12 0 0 500000000).Nanosecond ≠ 0
      ∧ (Date 2015 9 18 12 0 0 500000000).truncateSecond = Date 2015 9 18 12 0 0 0
      ∧ dDecimalHours (Date 2015 9 18 12 0 0 500000000)
          = dDecimalHours (Date 2015 9 18 12 0 0 0)
      ∧ dElapsedJulianDays (Date 2015 9 18 12 0 0 500000000)
          = dElapsedJulianDays (Date 2015 9 18 12 0 0 0) :=
  ⟨by decide, rfl, rfl, rfl⟩

/-! ## Lemmas on the trigonometric stages -/

theorem Rad_pos : 0 < Rad := by
  unfold Rad
  positivity

theorem atan2_le_pi (y x : ℝ) : atan2 y x ≤ Real.pi :=
  Complex.arg_le_pi _

theorem neg_pi_lt_atan2 (y x : ℝ) : -Real.pi < atan2 y x :=
  Complex.neg_pi_lt_arg _

/-- The `if a < 0 then a + 2π` normalisation maps `(-π, π]` into `[0, 2π)`. -/
theorem normalise_range (a : ℝ) (h1 : -Real.pi < a) (h2 : a ≤ Real.pi) :
    0 ≤ (if a < 0 then a + 2 * Real.pi else a)
      ∧ (if a < 0 then a + 2 * Real.pi else a) < 2 * Real.pi := by
  have hpi := Real.pi_pos
  split_ifs with h
  · constructor <;> linarith
  · constructor <;> linarith

theorem azimuthRad_range (latRad hourAngle decl : ℝ) :
    0 ≤ azimuthRad latRad hourAngle decl ∧ azimuthRad latRad hourAngle decl < 2 * Real.pi :=
  normalise_range _ (neg_pi_lt_atan2 _ _) (atan2_le_pi _ _)

/-- The argument of `math.Acos` is a scalar product of two unit vectors. -/
theorem zenithCosine_sq_le_one (latRad hourAngle decl : ℝ) :
    zenithCosine latRad hourAngle decl ^ 2 ≤ 1 := by
  unfold zenithCosine
  have h1 := Real.sin_sq_add_cos_sq latRad
  have h2 := Real.sin_sq_add_cos_sq hourAngle
  have h3 := Real.sin_sq_add_cos_sq decl
  set a := Real.cos latRad
  set b := Real.sin latRad
  set c := Real.cos hourAngle
  set t := Real.cos decl
  set v := Real.sin decl
  have hu : (c * t) ^ 2 + v ^ 2 ≤ 1 := by
    have : (c * t) ^ 2 + v ^ 2 = 1 - Real.sin hourAngle ^ 2 * t ^ 2 := by
      have hc : c ^ 2 = 1 - Real.sin hourAngle ^ 2 := by linarith
      have hv : v ^ 2 = 1 - t ^ 2 := by linarith
      rw [mul_pow, hc, hv]; ring
    rw [this]
    have := mul_nonneg (sq_nonneg (Real.sin hourAngle)) (sq_nonneg t)
    linarith
  have hid : (a * c * t + v * b) ^ 2
      = (b ^ 2 + a ^ 2) * ((c * t) ^ 2 + v ^ 2) - (a * v - b * (c * t)) ^ 2 := by ring
  rw [hid, h1, one_mul]
  have := sq_nonneg (a * v - b * (c * t))
  linarith

theorem zenithCosine_range (latRad hourAngle decl : ℝ) :
    -1 ≤ zenithCosine latRad hourAngle decl ∧ zenithCosine latRad hourAngle decl ≤ 1 := by
  have h := zenithCosine_sq_le_one latRad hourAngle decl
  constructor <;> nlinarith

theorem topocentric_add_two_pi (latitude hourAngle decl : ℝ) :
    topocentric latitude (hourAngle + 2 * Real.pi) decl = topocentric latitude hourAngle decl := by
  simp only [topocentric, zenithRad, zenithCosine, azimuthRad, Real.cos_add_two_pi,
    Real.sin_add_two_pi]

theorem dHourAngle_add_360 (d decimalHours longitude : ℝ) :
    dHourAngle d decimalHours (longitude + 360)
      = dHourAngle d decimalHours longitude + 2 * Real.pi := by
  unfold dHourAngle dLocalMeanSiderealTime Rad
  ring

theorem zenithRad_range (latRad hourAngle decl : ℝ) :
    0 ≤ zenithRad latRad hourAngle decl ∧ zenithRad latRad hourAngle decl ≤ Real.pi :=
  ⟨Real.arccos_nonneg _, Real.arccos_le_pi _⟩

theorem parallax_ratio_pos : 0 < EarthMeanRadius / AstronomicalUnit := by
  unfold EarthMeanRadius AstronomicalUnit
  norm_num

theorem dParallax_range (latRad hourAngle decl : ℝ) :
    0 ≤ dParallax (zenithRad latRad hourAngle decl)
      ∧ dParallax (zenithRad latRad hourAngle decl) ≤ EarthMeanRadius / AstronomicalUnit := by
  obtain ⟨h0, h1⟩ := zenithRad_range latRad hourAngle decl
  have hs0 : 0 ≤ Real.sin (zenithRad latRad hourAngle decl) :=
    Real.sin_nonneg_of_nonneg_of_le_pi h0 h1
  have hs1 : Real.sin (zenithRad latRad hourAngle decl) ≤ 1 := Real.sin_le_one _
  have hk := parallax_ratio_pos
  unfold dParallax
  constructor
  · exact mul_nonneg hk.le hs0
  · calc EarthMeanRadius / AstronomicalUnit * Real.sin (zenithRad latRad hourAngle decl)
        ≤ EarthMeanRadius / AstronomicalUnit * 1 := mul_le_mul_of_nonneg_left hs1 hk.le
      _ = EarthMeanRadius / AstronomicalUnit := mul_one _

/-! ## Claims on the trigonometric stages -/

/-- C1 (as amended): in exact real arithmetic, for every instant and every location the
azimuth returned by `Sunpos` lies in `[0, 360)` degrees. -/
theorem azimuth_range (t : Time) (loc : Location) :
    0 ≤ (Sunpos t loc).Azimuth ∧ (Sunpos t loc).Azimuth < 360 := by
  have hR := Rad_pos
  simp only [Sunpos, topocentric]
  obtain ⟨h0, h1⟩ := azimuthRad_range (loc.Latitude * Rad)
    (dHourAngle ((dElapsedJulianDays t : ℚ) : ℝ) ((dDecimalHours t : ℚ) : ℝ) loc.Longitude)
    (dDeclination (dEclipticLongitude ((dElapsedJulianDays t : ℚ) : ℝ))
      (dEclipticObliquity ((dElapsedJulianDays t : ℚ) : ℝ)))
  constructor
  · exact div_nonneg h0 hR.le
  · rw [div_lt_iff₀ hR]
    have : (360 : ℝ) * Rad = 2 * Real.pi := by unfold Rad; ring
    rw [this]
    exact h1

/-- C2 (as amended): in exact real arithmetic `Sunpos` is periodic in the longitude with
period 360 degrees: shifting the longitude by 360 leaves both the azimuth and the zenith
angle unchanged. -/
theorem longitude_periodic (t : Time) (latitude longitude : ℝ) :
    (Sunpos t ⟨latitude, longitude + 360⟩).Azimuth = (Sunpos t ⟨latitude, longitude⟩).Azimuth
      ∧ (Sunpos t ⟨latitude, longitude + 360⟩).ZenithAngle
          = (Sunpos t ⟨latitude, longitude⟩).ZenithAngle := by
  have h : Sunpos t ⟨latitude, longitude + 360⟩ = Sunpos t ⟨latitude, longitude⟩ := by
    simp only [Sunpos, dHourAngle_add_360, topocentric_add_two_pi]
  rw [h]
  exact ⟨rfl, rfl⟩

/-- C8 (as amended): in exact real arithmetic, for every instant and location the zenith
angle lies between 0 and `180 + (EarthMeanRadius/AstronomicalUnit)*(180/π)` degrees, this offset is below
0.0025 degrees, and the parallax term added to the `acos` value lies between 0 and
`EarthMeanRadius/AstronomicalUnit` radians. -/
theorem zenith_range (t : Time) (loc : Location) :
    0 ≤ (Sunpos t loc).ZenithAngle
      ∧ (Sunpos t loc).ZenithAngle
          ≤ 180 + (EarthMeanRadius / AstronomicalUnit) * (180 / Real.pi)
      ∧ (EarthMeanRadius / AstronomicalUnit) * (180 / Real.pi) < 0.0025
      ∧ ∀ latRad hourAngle decl : ℝ,
          0 ≤ dParallax (zenithRad latRad hourAngle decl)
            ∧ dParallax (zenithRad latRad hourAngle decl)
                ≤ EarthMeanRadius / AstronomicalUnit := by
  have hR := Rad_pos
  have hpi := Real.pi_pos
  refine ⟨?_, ?_, ?_, dParallax_range⟩
  · simp only [Sunpos, topocentric]
    apply div_nonneg _ hR.le
    have h1 := (zenithRad_range (loc.Latitude * Rad)
      (dHourAngle ((dElapsedJulianDays t : ℚ) : ℝ) ((dDecimalHours t : ℚ) : ℝ) loc.Longitude)
      (dDeclination (dEclipticLongitude ((dElapsedJulianDays t : ℚ) : ℝ))
        (dEclipticObliquity ((dElapsedJulianDays t : ℚ) : ℝ)))).1
    have h2 := (dParallax_range (loc.Latitude * Rad)
      (dHourAngle ((dElapsedJulianDays t : ℚ) : ℝ) ((dDecimalHours t : ℚ) : ℝ) loc.Longitude)
      (dDeclination (dEclipticLongitude ((dElapsedJulianDays t : ℚ) : ℝ))
        (dEclipticObliquity ((dElapsedJulianDays t : ℚ) : ℝ)))).1
    linarith
  · simp only [Sunpos, topocentric]
    rw [div_le_iff₀ hR]
    have h1 := (zenithRad_range (loc.Latitude * Rad)
      (dHourAngle ((dElapsedJulianDays t : ℚ) : ℝ) ((dDecimalHours t : ℚ) : ℝ) loc.Longitude)
      (dDeclination (dEclipticLongitude ((dElapsedJulianDays t : ℚ) : ℝ))
        (dEclipticObliquity ((dElapsedJulianDays t : ℚ) : ℝ)))).2
    have h2 := (dParallax_range (loc.Latitude * Rad)
      (dHourAngle ((dElapsedJulianDays t : ℚ) : ℝ) ((dDecimalHours t : ℚ) : ℝ) loc.Longitude)
      (dDeclination (dEclipticLongitude ((dElapsedJulianDays t : ℚ) : ℝ))
        (dEclipticObliquity ((dElapsedJulianDays t : ℚ) : ℝ)))).2
    have e : ∀ k : ℝ, (180 + k * (180 / Real.pi)) * Rad = Real.pi + k := by
      intro k
      unfold Rad
      field_simp
      ring
    rw [e]
    linarith
  · have h3 : (3.14 : ℝ) < Real.pi := Real.pi_gt_d2
    unfold EarthMeanRadius AstronomicalUnit
    rw [← mul_div_assoc, div_lt_iff₀ hpi]
    norm_num at h3 ⊢
    linarith

/-- C9 (as amended): in exact real arithmetic, for all real latitude (in radians), hour
angle and declination the argument of `acos` lies in
`[-1, 1]`, so the zenith angle is a genuine value in `[0, π]` whose cosine is that
argument; the argument of `asin` lies in `[-1, 1]` as well. -/
theorem acos_argument_in_domain (latRad hourAngle decl : ℝ) :
    (-1 ≤ zenithCosine latRad hourAngle decl ∧ zenithCosine latRad hourAngle decl ≤ 1)
      ∧ (0 ≤ zenithRad latRad hourAngle decl ∧ zenithRad latRad hourAngle decl ≤ Real.pi)
      ∧ Real.cos (zenithRad latRad hourAngle decl) = zenithCosine latRad hourAngle decl
      ∧ ∀ eclLon obl : ℝ, -1 ≤ Real.sin obl * Real.sin eclLon
          ∧ Real.sin obl * Real.sin eclLon ≤ 1 := by
  obtain ⟨h1, h2⟩ := zenithCosine_range latRad hourAngle decl
  refine ⟨⟨h1, h2⟩, zenithRad_range _ _ _, Real.cos_arccos h1 h2, ?_⟩
  intro eclLon obl
  have a1 := Real.neg_one_le_sin obl
  have a2 := Real.sin_le_one obl
  have b1 := Real.neg_one_le_sin eclLon
  have b2 := Real.sin_le_one eclLon
  constructor <;> nlinarith

/-! ## Enclosures of sine, cosine and `atan2` -/

/-- The first eight terms of the exponential series at `t * I`. -/
theorem exp_I_taylor (t : ℝ) :
    (∑ m ∈ Finset.range 8, ((t : ℂ) * Complex.I) ^ m / (m.factorial : ℂ))
      = ((1 - t ^ 2 / 2 + t ^ 4 / 24 - t ^ 6 / 720 : ℝ) : ℂ)
        + ((t - t ^ 3 / 6 + t ^ 5 / 120 - t ^ 7 / 5040 : ℝ) : ℂ) * Complex.I := by
  have h2 : Complex.I ^ 2 = -1 := Complex.I_sq
  have h3 : Complex.I ^ 3 = -Complex.I := by rw [pow_succ, h2]; ring
  have h4 : Complex.I ^ 4 = 1 := Complex.I_pow_four
  have h5 : Complex.I ^ 5 = Complex.I := by rw [pow_succ, h4]; ring
  have h6 : Complex.I ^ 6 = -1 := by rw [pow_succ, h5]; rw [← sq, h2]
  have h7 : Complex.I ^ 7 = -Complex.I := by rw [pow_succ, h6]; ring
  simp only [Finset.sum_range_succ, Finset.range_zero, Finset.sum_empty, mul_pow, h2, h3, h4, h5,
    h6, h7, Nat.factorial]
  push_cast
  ring

/-- Taylor polynomials of degree 7 approximate cosine and sine on `[-1, 1]` up to
`|t|^8 / 35840`. -/
theorem cos_sin_taylor (t : ℝ) (ht : |t| ≤ 1) :
    |Real.cos t - (1 - t ^ 2 / 2 + t ^ 4 / 24 - t ^ 6 / 720)| ≤ |t| ^ 8 / 35840
      ∧ |Real.sin t - (t - t ^ 3 / 6 + t ^ 5 / 120 - t ^ 7 / 5040)| ≤ |t| ^ 8 / 35840 := by
  have habs : Complex.abs ((t : ℂ) * Complex.I) = |t| := by simp
  have h := Complex.exp_bound (x := (t : ℂ) * Complex.I) (by rw [habs]; exact ht) (n := 8)
    (by norm_num)
  rw [exp_I_taylor, habs] at h
  have hb : |t| ^ 8 * ((Nat.succ 8 : ℕ) * ((Nat.factorial 8 : ℕ) * (8 : ℕ) : ℝ)⁻¹)
      = |t| ^ 8 / 35840 := by
    norm_num [Nat.factorial]
    ring
  rw [hb] at h
  set w : ℂ := Complex.exp ((t : ℂ) * Complex.I)
    - (((1 - t ^ 2 / 2 + t ^ 4 / 24 - t ^ 6 / 720 : ℝ) : ℂ)
        + ((t - t ^ 3 / 6 + t ^ 5 / 120 - t ^ 7 / 5040 : ℝ) : ℂ) * Complex.I) with hw
  have hre : w.re = Real.cos t - (1 - t ^ 2 / 2 + t ^ 4 / 24 - t ^ 6 / 720) := by
    rw [hw]
    simp only [Complex.sub_re, Complex.add_re, Complex.mul_re, Complex.ofReal_re,
      Complex.ofReal_im, Complex.I_re, Complex.I_im, Complex.exp_ofReal_mul_I_re, mul_zero,
      zero_mul, sub_zero, add_zero]
  have him : w.im = Real.sin t - (t - t ^ 3 / 6 + t ^ 5 / 120 - t ^ 7 / 5040) := by
    rw [hw]
    simp only [Complex.sub_im, Complex.add_im, Complex.mul_im, Complex.ofReal_re,
      Complex.ofReal_im, Complex.I_re, Complex.I_im, Complex.exp_ofReal_mul_I_im, mul_zero,
      zero_mul, mul_one, zero_add, add_zero]
  constructor
  · rw [← hre]; exact (Complex.abs_re_le_abs w).trans h
  · rw [← him]; exact (Complex.abs_im_le_abs w).trans h

/-- Upper bound of `cos x` from a lower bound `a` of `x`. -/
theorem cos_le_of_le {a x r : ℝ} (ha0 : 0 ≤ a) (ha1 : a ≤ 1) (hax : a ≤ x) (hx : x ≤ Real.pi)
    (hr : 1 - a ^ 2 / 2 + a ^ 4 / 24 - a ^ 6 / 720 + a ^ 8 / 35840 ≤ r) : Real.cos x ≤ r := by
  have h1 : Real.cos x ≤ Real.cos a := Real.cos_le_cos_of_nonneg_of_le_pi ha0 hx hax
  have h2 := (cos_sin_taylor a (by rw [abs_of_nonneg ha0]; exact ha1)).1
  rw [abs_of_nonneg ha0] at h2
  have h3 := (abs_le.mp h2).2
  linarith

/-- Lower bound of `cos x` from an upper bound `b` of `x`. -/
theorem le_cos_of_le {b x r : ℝ} (hx0 : 0 ≤ x) (hxb : x ≤ b) (hb1 : b ≤ 1)
    (hr : r ≤ 1 - b ^ 2 / 2 + b ^ 4 / 24 - b ^ 6 / 720 - b ^ 8 / 35840) : r ≤ Real.cos x := by
  have hb0 : 0 ≤ b := hx0.trans hxb
  have hbpi : b ≤ Real.pi := by linarith [Real.pi_gt_three]
  have h1 : Real.cos b ≤ Real.cos x := Real.cos_le_cos_of_nonneg_of_le_pi hx0 hbpi hxb
  have h2 := (cos_sin_taylor b (by rw [abs_of_nonneg hb0]; exact hb1)).1
  rw [abs_of_nonneg hb0] at h2
  have h3 := (abs_le.mp h2).1
  linarith

/-- Upper bound of `sin x` from an upper bound `b` of `x`. -/
theorem sin_le_of_le {b x r : ℝ} (hx0 : 0 ≤ x) (hxb : x ≤ b) (hb1 : b ≤ 1)
    (hr : b - b ^ 3 / 6 + b ^ 5 / 120 - b ^ 7 / 5040 + b ^ 8 / 35840 ≤ r) : Real.sin x ≤ r := by
  have hb0 : 0 ≤ b := hx0.trans hxb
  have hpi := Real.pi_gt_three
  have h1 : Real.sin x ≤ Real.sin b :=
    Real.sin_le_sin_of_le_of_le_pi_div_two (by linarith) (by linarith) hxb
  have h2 := (cos_sin_taylor b (by rw [abs_of_nonneg hb0]; exact hb1)).2
  rw [abs_of_nonneg hb0] at h2
  have h3 := (abs_le.mp h2).2
  linarith

/-- Lower bound of `sin x` from a lower bound `a` of `x`. -/
theorem le_sin_of_le {a x r : ℝ} (ha0 : 0 ≤ a) (hax : a ≤ x) (hx1 : x ≤ 1)
    (hr : r ≤ a - a ^ 3 / 6 + a ^ 5 / 120 - a ^ 7 / 5040 - a ^ 8 / 35840) : r ≤ Real.sin x := by
  have hpi := Real.pi_gt_three
  have h1 : Real.sin a ≤ Real.sin x :=
    Real.sin_le_sin_of_le_of_le_pi_div_two (by linarith) (by linarith) hax
  have h2 := (cos_sin_taylor a (by rw [abs_of_nonneg ha0]; linarith)).2
  rw [abs_of_nonneg ha0] at h2
  have h3 := (abs_le.mp h2).1
  linarith

/-- In the upper half plane `atan2 y x` exceeds `α` as soon as `(x, y)` lies
counter-clockwise of the direction `α`. -/
theorem lt_atan2_of {x y α : ℝ} (hy : 0 < y) (hαπ : α ≤ Real.pi)
    (h : 0 < y * Real.cos α - x * Real.sin α) : α < atan2 y x := by
  unfold atan2
  set z : ℂ := ⟨x, y⟩ with hz
  have hθ0 : 0 ≤ Complex.arg z := Complex.arg_nonneg_iff.mpr hy.le
  have hθπ : Complex.arg z ≤ Real.pi := Complex.arg_le_pi z
  have hre : Complex.abs z * Real.cos (Complex.arg z) = x := Complex.abs_mul_cos_arg z
  have him : Complex.abs z * Real.sin (Complex.arg z) = y := Complex.abs_mul_sin_arg z
  have hkey : Complex.abs z * Real.sin (Complex.arg z - α) = y * Real.cos α - x * Real.sin α := by
    rw [Real.sin_sub, ← hre, ← him]; ring
  by_contra hcon
  push_neg at hcon
  have hs : Real.sin (Complex.arg z - α) ≤ 0 :=
    Real.sin_nonpos_of_nonnpos_of_neg_pi_le (by linarith) (by linarith)
  have := mul_nonpos_of_nonneg_of_nonpos (Complex.abs.nonneg z) hs
  linarith

/-- In the upper half plane `atan2 y x` is below `β` as soon as `(x, y)` lies clockwise
of the direction `β`. -/
theorem atan2_lt_of {x y β : ℝ} (hy : 0 < y) (hβ0 : 0 ≤ β)
    (h : 0 < x * Real.sin β - y * Real.cos β) : atan2 y x < β := by
  unfold atan2
  set z : ℂ := ⟨x, y⟩ with hz
  have hθ0 : 0 ≤ Complex.arg z := Complex.arg_nonneg_iff.mpr hy.le
  have hθπ : Complex.arg z ≤ Real.pi := Complex.arg_le_pi z
  have hre : Complex.abs z * Real.cos (Complex.arg z) = x := Complex.abs_mul_cos_arg z
  have him : Complex.abs z * Real.sin (Complex.arg z) = y := Complex.abs_mul_sin_arg z
  have hkey : Complex.abs z * Real.sin (β - Complex.arg z) = x * Real.sin β - y * Real.cos β := by
    rw [Real.sin_sub, ← hre, ← him]; ring
  by_contra hcon
  push_neg at hcon
  have hs : Real.sin (β - Complex.arg z) ≤ 0 :=
    Real.sin_nonpos_of_nonnpos_of_neg_pi_le (by linarith) (by linarith)
  have := mul_nonpos_of_nonneg_of_nonpos (Complex.abs.nonneg z) hs
  linarith

/-! ## The reference scenario: enclosures stage by stage -/

theorem ref_elapsed :
    ((dElapsedJulianDays refTime : ℚ) : ℝ) = 5739 ∧ ((dDecimalHours refTime : ℚ) : ℝ) = 12 := by
  have h : liAux2 2015 9 18 = 2457284 := by decide
  constructor <;>
    norm_num [refTime, Date, dElapsedJulianDays, dJulianDate, dDecimalHours, h]

theorem ref_sin_anomaly :
    -0.960733 ≤ Real.sin (dMeanAnomaly 5739) ∧ Real.sin (dMeanAnomaly 5739) ≤ -0.960722 := by
  have hl := Real.pi_gt_d6
  have hu := Real.pi_lt_d6
  have hma : dMeanAnomaly 5739
      = (Real.pi / 2 - (67 * Real.pi / 2 - 104.9621652561)) + ((33 : ℕ) : ℝ) * Real.pi := by
    unfold dMeanAnomaly
    push_cast
    ring
  have hs : Real.sin (dMeanAnomaly 5739) = -Real.cos (67 * Real.pi / 2 - 104.9621652561) := by
    rw [hma, Real.sin_add_nat_mul_pi, Real.sin_pi_div_two_sub]
    norm_num
  rw [hs]
  have h1 : Real.cos (67 * Real.pi / 2 - 104.9621652561) ≤ 0.960733 :=
    cos_le_of_le (a := 0.281166) (by norm_num) (by norm_num) (by linarith) (by linarith)
      (by norm_num)
  have h2 : (0.960722 : ℝ) ≤ Real.cos (67 * Real.pi / 2 - 104.9621652561) :=
    le_cos_of_le (b := 0.281201) (by linarith) (by linarith) (by norm_num) (by norm_num)
  constructor <;> linarith

theorem ref_ecliptic_longitude :
    103.589297 ≤ dEclipticLongitude 5739 ∧ dEclipticLongitude 5739 ≤ 103.590037 := by
  obtain ⟨h1, h2⟩ := ref_sin_anomaly
  have a1 := Real.neg_one_le_sin (2 * dMeanAnomaly 5739)
  have a2 := Real.sin_le_one (2 * dMeanAnomaly 5739)
  have b1 := Real.neg_one_le_sin (dOmega 5739)
  have b2 := Real.sin_le_one (dOmega 5739)
  unfold dEclipticLongitude dMeanLongitude
  constructor <;> norm_num <;> linarith

theorem ref_obliquity :
    0.409017 ≤ dEclipticObliquity 5739 ∧ dEclipticObliquity 5739 ≤ 0.409097 := by
  have b1 := Real.neg_one_le_cos (dOmega 5739)
  have b2 := Real.cos_le_one (dOmega 5739)
  unfold dEclipticObliquity
  constructor <;> norm_num <;> linarith

theorem ref_sin_cos_longitude :
    (0.082405 ≤ Real.sin (dEclipticLongitude 5739)
        ∧ Real.sin (dEclipticLongitude 5739) ≤ 0.083176)
      ∧ (-0.996599 ≤ Real.cos (dEclipticLongitude 5739)
        ∧ Real.cos (dEclipticLongitude 5739) ≤ -0.996534) := by
  have hl := Real.pi_gt_d6
  have hu := Real.pi_lt_d6
  obtain ⟨h1, h2⟩ := ref_ecliptic_longitude
  have he : dEclipticLongitude 5739
      = ((33 : ℕ) : ℝ) * Real.pi - (33 * Real.pi - dEclipticLongitude 5739) := by
    push_cast
    ring
  have hs : Real.sin (dEclipticLongitude 5739)
      = Real.sin (33 * Real.pi - dEclipticLongitude 5739) := by
    conv_lhs => rw [he, Real.sin_nat_mul_pi_sub]
    norm_num
  have hc : Real.cos (dEclipticLongitude 5739)
      = -Real.cos (33 * Real.pi - dEclipticLongitude 5739) := by
    conv_lhs => rw [he, Real.cos_nat_mul_pi_sub]
    norm_num
  rw [hs, hc]
  have s1 : (0.082405 : ℝ) ≤ Real.sin (33 * Real.pi - dEclipticLongitude 5739) :=
    le_sin_of_le (a := 0.082499) (by norm_num) (by linarith) (by linarith) (by norm_num)
  have s2 : Real.sin (33 * Real.pi - dEclipticLongitude 5739) ≤ 0.083176 :=
    sin_le_of_le (b := 0.083272) (by linarith) (by linarith) (by norm_num) (by norm_num)
  have c1 : (0.996534 : ℝ) ≤ Real.cos (33 * Real.pi - dEclipticLongitude 5739) :=
    le_cos_of_le (b := 0.083272) (by linarith) (by linarith) (by norm_num) (by norm_num)
  have c2 : Real.cos (33 * Real.pi - dEclipticLongitude 5739) ≤ 0.996599 :=
    cos_le_of_le (a := 0.082499) (by norm_num) (by norm_num) (by linarith) (by linarith)
      (by norm_num)
  refine ⟨⟨s1, s2⟩, ?_, ?_⟩ <;> linarith

theorem ref_sin_cos_obliquity :
    (0.397707 ≤ Real.sin (dEclipticObliquity 5739)
        ∧ Real.sin (dEclipticObliquity 5739) ≤ 0.397782)
      ∧ (0.91748 ≤ Real.cos (dEclipticObliquity 5739)
        ∧ Real.cos (dEclipticObliquity 5739) ≤ 0.917513) := by
  have hl := Real.pi_gt_d6
  obtain ⟨h1, h2⟩ := ref_obliquity
  have s1 : (0.397707 : ℝ) ≤ Real.sin (dEclipticObliquity 5739) :=
    le_sin_of_le (a := 0.409017) (by norm_num) h1 (by linarith) (by norm_num)
  have s2 : Real.sin (dEclipticObliquity 5739) ≤ 0.397782 :=
    sin_le_of_le (b := 0.409097) (by linarith) h2 (by norm_num) (by norm_num)
  have c1 : (0.91748 : ℝ) ≤ Real.cos (dEclipticObliquity 5739) :=
    le_cos_of_le (b := 0.409097) (by linarith) h2 (by norm_num) (by norm_num)
  have c2 : Real.cos (dEclipticObliquity 5739) ≤ 0.917513 :=
    cos_le_of_le (a := 0.409017) (by norm_num) (by norm_num) h1 (by linarith) (by norm_num)
  exact ⟨⟨s1, s2⟩, c1, c2⟩

theorem ref_right_ascension :
    Real.pi - 0.07645 < dRightAscension (dEclipticLongitude 5739) (dEclipticObliquity 5739)
      ∧ dRightAscension (dEclipticLongitude 5739) (dEclipticObliquity 5739)
          < Real.pi - 0.0757 := by
  have hl := Real.pi_gt_d6
  obtain ⟨⟨s1, s2⟩, c1, c2⟩ := ref_sin_cos_longitude
  obtain ⟨-, e1, e2⟩ := ref_sin_cos_obliquity
  set sl := Real.sin (dEclipticLongitude 5739)
  set cl := Real.cos (dEclipticLongitude 5739)
  set ce := Real.cos (dEclipticObliquity 5739)
  have hY1 : 0.91748 * 0.082405 ≤ ce * sl := mul_le_mul e1 s1 (by norm_num) (by linarith)
  have hY2 : ce * sl ≤ 0.917513 * 0.083176 := mul_le_mul e2 s2 (by linarith) (by norm_num)
  have hYpos : 0 < ce * sl := by linarith
  -- direction `π - 0.07645`
  have lo : Real.pi - 0.07645 < atan2 (ce * sl) cl := by
    apply lt_atan2_of hYpos (by linarith)
    rw [Real.cos_pi_sub, Real.sin_pi_sub]
    have k1 : Real.cos 0.07645 ≤ 0.99708 :=
      cos_le_of_le (a := 0.07645) (by norm_num) (by norm_num) le_rfl (by linarith) (by norm_num)
    have k2 : (0.076375 : ℝ) ≤ Real.sin 0.07645 :=
      le_sin_of_le (a := 0.07645) (by norm_num) le_rfl (by norm_num) (by norm_num)
    have k3 : 0 ≤ Real.cos 0.07645 :=
      le_cos_of_le (b := 0.07645) (by norm_num) le_rfl (by norm_num) (by norm_num)
    have m1 : ce * sl * Real.cos 0.07645 ≤ 0.917513 * 0.083176 * 0.99708 :=
      mul_le_mul hY2 k1 k3 (by norm_num)
    have m2 : 0.996534 * 0.076375 ≤ (-cl) * Real.sin 0.07645 :=
      mul_le_mul (by linarith) k2 (by norm_num) (by linarith)
    nlinarith
  -- direction `π - 0.0757`
  have hi : atan2 (ce * sl) cl < Real.pi - 0.0757 := by
    apply atan2_lt_of hYpos (by linarith)
    rw [Real.cos_pi_sub, Real.sin_pi_sub]
    have k1 : (0.997136 : ℝ) ≤ Real.cos 0.0757 :=
      le_cos_of_le (b := 0.0757) (by norm_num) le_rfl (by norm_num) (by norm_num)
    have k2 : Real.sin 0.0757 ≤ 0.075628 :=
      sin_le_of_le (b := 0.0757) (by norm_num) le_rfl (by norm_num) (by norm_num)
    have k3 : 0 ≤ Real.sin 0.0757 :=
      le_sin_of_le (a := 0.0757) (by norm_num) le_rfl (by norm_num) (by norm_num)
    have m1 : 0.91748 * 0.082405 * 0.997136 ≤ ce * sl * Real.cos 0.0757 :=
      mul_le_mul hY1 k1 (by norm_num) (by linarith)
    have m2 : (-cl) * Real.sin 0.0757 ≤ 0.996599 * 0.075628 :=
      mul_le_mul (by linarith) k2 k3 (by norm_num)
    nlinarith
  have hpos : ¬ atan2 (ce * sl) cl < 0 := by linarith
  simp only [dRightAscension]
  rw [if_neg hpos]
  exact ⟨lo, hi⟩

theorem ref_declination :
    (0.032773 ≤ Real.sin (dDeclination (dEclipticLongitude 5739) (dEclipticObliquity 5739))
        ∧ Real.sin (dDeclination (dEclipticLongitude 5739) (dEclipticObliquity 5739))
            ≤ 0.033086)
      ∧ (0.998905 ≤ Real.cos (dDeclination (dEclipticLongitude 5739) (dEclipticObliquity 5739))
        ∧ Real.cos (dDeclination (dEclipticLongitude 5739) (dEclipticObliquity 5739)) ≤ 1)
      ∧ (0.032773 ≤ Real.tan (dDeclination (dEclipticLongitude 5739) (dEclipticObliquity 5739))
        ∧ Real.tan (dDeclination (dEclipticLongitude 5739) (dEclipticObliquity 5739))
            ≤ 0.033123) := by
  obtain ⟨⟨s1, s2⟩, -⟩ := ref_sin_cos_longitude
  obtain ⟨⟨e1, e2⟩, -⟩ := ref_sin_cos_obliquity
  set sl := Real.sin (dEclipticLongitude 5739)
  set se := Real.sin (dEclipticObliquity 5739)
  have p1 : 0.397707 * 0.082405 ≤ se * sl := mul_le_mul e1 s1 (by norm_num) (by linarith)
  have p2 : se * sl ≤ 0.397782 * 0.083176 := mul_le_mul e2 s2 (by linarith) (by norm_num)
  have hsin : Real.sin (dDeclination (dEclipticLongitude 5739) (dEclipticObliquity 5739))
      = se * sl := by
    unfold dDeclination
    exact Real.sin_arcsin (by linarith) (by linarith)
  have hc0 : 0 ≤ Real.cos (dDeclination (dEclipticLongitude 5739) (dEclipticObliquity 5739)) :=
    Real.cos_arcsin_nonneg _
  have hc1 := Real.cos_le_one (dDeclination (dEclipticLongitude 5739) (dEclipticObliquity 5739))
  have hsq := Real.sin_sq_add_cos_sq
    (dDeclination (dEclipticLongitude 5739) (dEclipticObliquity 5739))
  rw [Real.tan_eq_sin_div_cos, hsin] at *
  set c := Real.cos (dDeclination (dEclipticLongitude 5739) (dEclipticObliquity 5739))
  have hs1 : (0.032773 : ℝ) ≤ se * sl := by linarith
  have hs2 : se * sl ≤ 0.033086 := by linarith
  have hcl : (0.998905 : ℝ) ≤ c := by nlinarith
  have hcpos : 0 < c := by linarith
  refine ⟨⟨hs1, hs2⟩, ⟨hcl, hc1⟩, ?_, ?_⟩
  · rw [le_div_iff₀ hcpos]
    nlinarith
  · rw [div_le_iff₀ hcpos]
    nlinarith

theorem ref_hour_angle :
    (0.17538 ≤ -Real.sin (dHourAngle 5739 12 (-11.573))
        ∧ -Real.sin (dHourAngle 5739 12 (-11.573)) ≤ 0.17612)
      ∧ (0.984368 ≤ Real.cos (dHourAngle 5739 12 (-11.573))
        ∧ Real.cos (dHourAngle 5739 12 (-11.573)) ≤ 0.984501) := by
  have hl := Real.pi_gt_d6
  have hu := Real.pi_lt_d6
  obtain ⟨r1, r2⟩ := ref_right_ascension
  set ra := dRightAscension (dEclipticLongitude 5739) (dEclipticObliquity 5739)
  have hh : dHourAngle 5739 12 (-11.573)
      = ((16 : ℕ) : ℝ) * (2 * Real.pi) - (ra - 331037868137 / 360000000000 * Real.pi) := by
    unfold dHourAngle dLocalMeanSiderealTime dGreenwichMeanSiderealTime Rad
    push_cast
    ring
  have hs : -Real.sin (dHourAngle 5739 12 (-11.573))
      = Real.sin (ra - 331037868137 / 360000000000 * Real.pi) := by
    rw [hh, Real.sin_nat_mul_two_pi_sub, neg_neg]
  have hc : Real.cos (dHourAngle 5739 12 (-11.573))
      = Real.cos (ra - 331037868137 / 360000000000 * Real.pi) := by
    rw [hh, Real.cos_nat_mul_two_pi_sub]
  rw [hs, hc]
  have t1 : (0.176292 : ℝ) ≤ ra - 331037868137 / 360000000000 * Real.pi := by linarith
  have t2 : ra - 331037868137 / 360000000000 * Real.pi ≤ 0.177043 := by linarith
  have s1 : (0.17538 : ℝ) ≤ Real.sin (ra - 331037868137 / 360000000000 * Real.pi) :=
    le_sin_of_le (a := 0.176292) (by norm_num) t1 (by linarith) (by norm_num)
  have s2 : Real.sin (ra - 331037868137 / 360000000000 * Real.pi) ≤ 0.17612 :=
    sin_le_of_le (b := 0.177043) (by linarith) t2 (by norm_num) (by norm_num)
  have c1 : (0.984368 : ℝ) ≤ Real.cos (ra - 331037868137 / 360000000000 * Real.pi) :=
    le_cos_of_le (b := 0.177043) (by linarith) t2 (by norm_num) (by norm_num)
  have c2 : Real.cos (ra - 331037868137 / 360000000000 * Real.pi) ≤ 0.984501 :=
    cos_le_of_le (a := 0.176292) (by norm_num) (by norm_num) t1 (by linarith) (by norm_num)
  exact ⟨⟨s1, s2⟩, c1, c2⟩

theorem ref_latitude :
    (0.744862 ≤ Real.sin (48.148 * Rad) ∧ Real.sin (48.148 * Rad) ≤ 0.744878)
      ∧ (0.667195 ≤ Real.cos (48.148 * Rad) ∧ Real.cos (48.148 * Rad) ≤ 0.667211) := by
  have hl := Real.pi_gt_d6
  have hu := Real.pi_lt_d6
  have t1 : (0.84034 : ℝ) ≤ 48.148 * Rad := by unfold Rad; linarith
  have t2 : (48.148 : ℝ) * Rad ≤ 0.840342 := by unfold Rad; linarith
  have s1 : (0.744862 : ℝ) ≤ Real.sin (48.148 * Rad) :=
    le_sin_of_le (a := 0.84034) (by norm_num) t1 (by linarith) (by norm_num)
  have s2 : Real.sin (48.148 * Rad) ≤ 0.744878 :=
    sin_le_of_le (b := 0.840342) (by linarith) t2 (by norm_num) (by norm_num)
  have c1 : (0.667195 : ℝ) ≤ Real.cos (48.148 * Rad) :=
    le_cos_of_le (b := 0.840342) (by linarith) t2 (by norm_num) (by norm_num)
  have c2 : Real.cos (48.148 * Rad) ≤ 0.667211 :=
    cos_le_of_le (a := 0.84034) (by norm_num) (by norm_num) t1 (by linarith) (by norm_num)
  exact ⟨⟨s1, s2⟩, c1, c2⟩

theorem ref_zenith_cosine :
    0.680457 ≤ zenithCosine (48.148 * Rad) (dHourAngle 5739 12 (-11.573))
        (dDeclination (dEclipticLongitude 5739) (dEclipticObliquity 5739))
      ∧ zenithCosine (48.148 * Rad) (dHourAngle 5739 12 (-11.573))
        (dDeclination (dEclipticLongitude 5739) (dEclipticObliquity 5739)) ≤ 0.681515 := by
  obtain ⟨⟨d1, d2⟩, ⟨d3, d4⟩, -⟩ := ref_declination
  obtain ⟨-, h1, h2⟩ := ref_hour_angle
  obtain ⟨⟨p1, p2⟩, p3, p4⟩ := ref_latitude
  unfold zenithCosine
  set cp := Real.cos (48.148 * Rad)
  set sp := Real.sin (48.148 * Rad)
  set ch := Real.cos (dHourAngle 5739 12 (-11.573))
  set cd := Real.cos (dDeclination (dEclipticLongitude 5739) (dEclipticObliquity 5739))
  set sd := Real.sin (dDeclination (dEclipticLongitude 5739) (dEclipticObliquity 5739))
  have a1 : 0.667195 * 0.984368 ≤ cp * ch := mul_le_mul p3 h1 (by norm_num) (by linarith)
  have a2 : cp * ch ≤ 0.667211 * 0.984501 := mul_le_mul p4 h2 (by linarith) (by norm_num)
  have a3 : 0.667195 * 0.984368 * 0.998905 ≤ cp * ch * cd :=
    mul_le_mul a1 d3 (by norm_num) (by linarith)
  have a4 : cp * ch * cd ≤ 0.667211 * 0.984501 * 1 :=
    mul_le_mul a2 d4 (by linarith) (by norm_num)
  have b1 : 0.032773 * 0.744862 ≤ sd * sp := mul_le_mul d1 p1 (by norm_num) (by linarith)
  have b2 : sd * sp ≤ 0.033086 * 0.744878 := mul_le_mul d2 p2 (by linarith) (by norm_num)
  constructor <;> linarith

theorem ref_zenith :
    0.802852 < zenithRad (48.148 * Rad) (dHourAngle 5739 12 (-11.573))
        (dDeclination (dEclipticLongitude 5739) (dEclipticObliquity 5739))
      ∧ zenithRad (48.148 * Rad) (dHourAngle 5739 12 (-11.573))
        (dDeclination (dEclipticLongitude 5739) (dEclipticObliquity 5739)) < 0.837715 := by
  have hl := Real.pi_gt_d6
  obtain ⟨u1, u2⟩ := ref_zenith_cosine
  unfold zenithRad
  set u := zenithCosine (48.148 * Rad) (dHourAngle 5739 12 (-11.573))
    (dDeclination (dEclipticLongitude 5739) (dEclipticObliquity 5739))
  have hu : u ∈ Set.Icc (-1 : ℝ) 1 := ⟨by linarith, by linarith⟩
  have k1 : (0.694648 : ℝ) ≤ Real.cos 0.802852 :=
    le_cos_of_le (b := 0.802852) (by norm_num) le_rfl (by norm_num) (by norm_num)
  have k2 : Real.cos 0.837715 ≤ 0.669164 :=
    cos_le_of_le (a := 0.837715) (by norm_num) (by norm_num) le_rfl (by linarith) (by norm_num)
  constructor
  · have h := Real.strictAntiOn_arccos hu
      ⟨Real.neg_one_le_cos _, Real.cos_le_one _⟩ (show u < Real.cos 0.802852 by linarith)
    rwa [Real.arccos_cos (by norm_num) (by linarith)] at h
  · have h := Real.strictAntiOn_arccos
      ⟨Real.neg_one_le_cos _, Real.cos_le_one _⟩ hu (show Real.cos 0.837715 < u by linarith)
    rwa [Real.arccos_cos (by norm_num) (by linarith)] at h

theorem ref_azimuth :
    Real.pi - 0.261799 < azimuthRad (48.148 * Rad) (dHourAngle 5739 12 (-11.573))
        (dDeclination (dEclipticLongitude 5739) (dEclipticObliquity 5739))
      ∧ azimuthRad (48.148 * Rad) (dHourAngle 5739 12 (-11.573))
        (dDeclination (dEclipticLongitude 5739) (dEclipticObliquity 5739))
          < Real.pi - 0.226893 := by
  have hl := Real.pi_gt_d6
  obtain ⟨-, -, d5, d6⟩ := ref_declination
  obtain ⟨⟨y1, y2⟩, h1, h2⟩ := ref_hour_angle
  obtain ⟨⟨p1, p2⟩, p3, p4⟩ := ref_latitude
  simp only [azimuthRad]
  set cp := Real.cos (48.148 * Rad)
  set sp := Real.sin (48.148 * Rad)
  set ch := Real.cos (dHourAngle 5739 12 (-11.573))
  set dY := -Real.sin (dHourAngle 5739 12 (-11.573))
  set td := Real.tan (dDeclination (dEclipticLongitude 5739) (dEclipticObliquity 5739))
  have a1 : 0.032773 * 0.667195 ≤ td * cp := mul_le_mul d5 p3 (by norm_num) (by linarith)
  have a2 : td * cp ≤ 0.033123 * 0.667211 := mul_le_mul d6 p4 (by linarith) (by norm_num)
  have b1 : 0.744862 * 0.984368 ≤ sp * ch := mul_le_mul p1 h1 (by norm_num) (by linarith)
  have b2 : sp * ch ≤ 0.744878 * 0.984501 := mul_le_mul p2 h2 (by linarith) (by norm_num)
  have x1 : (-0.711468 : ℝ) ≤ td * cp - sp * ch := by linarith
  have x2 : td * cp - sp * ch ≤ -0.711118 := by linarith
  have hYpos : 0 < dY := lt_of_lt_of_le (by norm_num) y1
  have lo : Real.pi - 0.261799 < atan2 dY (td * cp - sp * ch) := by
    apply lt_atan2_of hYpos (by linarith)
    rw [Real.cos_pi_sub, Real.sin_pi_sub]
    have k1 : Real.cos 0.261799 ≤ 0.965926 :=
      cos_le_of_le (a := 0.261799) (by norm_num) (by norm_num) le_rfl (by linarith) (by norm_num)
    have k2 : (0.258818 : ℝ) ≤ Real.sin 0.261799 :=
      le_sin_of_le (a := 0.261799) (by norm_num) le_rfl (by norm_num) (by norm_num)
    have k3 : 0 ≤ Real.cos 0.261799 :=
      le_cos_of_le (b := 0.261799) (by norm_num) le_rfl (by norm_num) (by norm_num)
    have m1 : dY * Real.cos 0.261799 ≤ 0.17612 * 0.965926 :=
      mul_le_mul y2 k1 k3 (by norm_num)
    have m2 : 0.711118 * 0.258818 ≤ (-(td * cp - sp * ch)) * Real.sin 0.261799 :=
      mul_le_mul (by linarith) k2 (by norm_num) (by linarith)
    nlinarith
  have hi : atan2 dY (td * cp - sp * ch) < Real.pi - 0.226893 := by
    apply atan2_lt_of hYpos (by linarith)
    rw [Real.cos_pi_sub, Real.sin_pi_sub]
    have k1 : (0.97437 : ℝ) ≤ Real.cos 0.226893 :=
      le_cos_of_le (b := 0.226893) (by norm_num) le_rfl (by norm_num) (by norm_num)
    have k2 : Real.sin 0.226893 ≤ 0.224952 :=
      sin_le_of_le (b := 0.226893) (by norm_num) le_rfl (by norm_num) (by norm_num)
    have k3 : 0 ≤ Real.sin 0.226893 :=
      le_sin_of_le (a := 0.226893) (by norm_num) le_rfl (by norm_num) (by norm_num)
    have m1 : 0.17538 * 0.97437 ≤ dY * Real.cos 0.226893 :=
      mul_le_mul y1 k1 (by norm_num) (by linarith)
    have m2 : (-(td * cp - sp * ch)) * Real.sin 0.226893 ≤ 0.711468 * 0.224952 :=
      mul_le_mul (by linarith) k2 k3 (by norm_num)
    nlinarith
  have hpos : ¬ atan2 dY (td * cp - sp * ch) < 0 := by linarith
  rw [if_neg hpos]
  exact ⟨lo, hi⟩

/-- C6: for the reference instant 2015-09-18T12:00:00 UTC and the location
`Location{48.148, -11.573}` of the commented-out `main`, `Sunpos` returns an azimuth
between 165 and 167 degrees and a zenith angle between 46 and 48 degrees. -/
theorem reference_scenario :
    (165 < (Sunpos refTime refLocation).Azimuth ∧ (Sunpos refTime refLocation).Azimuth < 167)
      ∧ (46 < (Sunpos refTime refLocation).ZenithAngle
        ∧ (Sunpos refTime refLocation).ZenithAngle < 48) := by
  have hl := Real.pi_gt_d6
  have hu := Real.pi_lt_d6
  have hR := Rad_pos
  have hRad : Rad = Real.pi / 180 := rfl
  obtain ⟨z1, z2⟩ := ref_zenith
  obtain ⟨a1, a2⟩ := ref_azimuth
  obtain ⟨q1, q2⟩ := dParallax_range (48.148 * Rad) (dHourAngle 5739 12 (-11.573))
    (dDeclination (dEclipticLongitude 5739) (dEclipticObliquity 5739))
  have hk : EarthMeanRadius / AstronomicalUnit ≤ 0.0000426 := by
    unfold EarthMeanRadius AstronomicalUnit
    norm_num
  simp only [Sunpos, refLocation, topocentric, ref_elapsed.1, ref_elapsed.2]
  refine ⟨⟨?_, ?_⟩, ?_, ?_⟩
  · rw [lt_div_iff₀ hR]
    linarith
  · rw [div_lt_iff₀ hR]
    linarith
  · rw [lt_div_iff₀ hR]
    linarith
  · rw [div_lt_iff₀ hR]
    linarith

/-! ## Further claims on the calendar stage -/

/-- C11: the day count follows the Gregorian leap-year rule: for every year `y` in
`1..9999`, `liAux2` at 1 March minus `liAux2` at 28 February is 2 when `y` is divisible
by 4 and (not divisible by 100 or divisible by 400), and 1 otherwise. -/
theorem liAux2_leap_rule (y : Int) (h1 : 1 ≤ y) (h2 : y ≤ 9999) :
    liAux2 y 3 1 - liAux2 y 2 28
      = if y % 4 = 0 ∧ (y % 100 ≠ 0 ∨ y % 400 = 0) then 2 else 1 := by
  rw [liAux2_late (by omega) (by norm_num) (by norm_num),
    liAux2_early (by omega) (by norm_num) (by norm_num)]
  have hY := year_term_step (y + 4799)
  have hC := century_term_step (y + 4899)
  have e1 : y + 4799 + 1 = y + 4800 := by ring
  have e2 : y + 4899 + 1 = y + 4900 := by ring
  rw [e1] at hY
  rw [e2] at hC
  rw [hY, hC]
  split_ifs <;> omega

/-- Witness for C11: 1900 is not a leap year, 2000 is. -/
theorem liAux2_leap_rule_witness :
    liAux2 1900 3 1 - liAux2 1900 2 28 = 1 ∧ liAux2 2000 3 1 - liAux2 2000 2 28 = 2 :=
  ⟨by simpa using liAux2_leap_rule 1900 (by decide) (by decide),
    by simpa using liAux2_leap_rule 2000 (by decide) (by decide)⟩

/-- C12: for every date and every time of day with hour in `0..23`, minute in `0..59`
and whole second in `0..59`, the elapsed Julian days are exactly
`liAux2 - 2451545.5 + (3600*hour + 60*minute + second)/86400`; the decimal hours lie in
`[0, 24)`, the elapsed Julian days in `[liAux2 - 2451545.5, liAux2 - 2451544.5)`, and a
later time of day on the same date gives strictly larger elapsed Julian days. -/
theorem elapsed_closed_form (t : Time) (hh0 : 0 ≤ t.Hour) (hh1 : t.Hour ≤ 23)
    (hm0 : 0 ≤ t.Minute) (hm1 : t.Minute ≤ 59) (hs0 : 0 ≤ t.Second) (hs1 : t.Second ≤ 59) :
    dElapsedJulianDays t
        = (liAux2 t.Year t.Month t.Day : ℚ) - 2451545.5
          + (3600 * (t.Hour : ℚ) + 60 * (t.Minute : ℚ) + (t.Second : ℚ)) / 86400
      ∧ (0 ≤ dDecimalHours t ∧ dDecimalHours t < 24)
      ∧ ((liAux2 t.Year t.Month t.Day : ℚ) - 2451545.5 ≤ dElapsedJulianDays t
        ∧ dElapsedJulianDays t < (liAux2 t.Year t.Month t.Day : ℚ) - 2451544.5)
      ∧ ∀ u : Time, u.Year = t.Year → u.Month = t.Month → u.Day = t.Day →
          0 ≤ u.Hour → u.Hour ≤ 23 → 0 ≤ u.Minute → u.Minute ≤ 59 →
          0 ≤ u.Second → u.Second ≤ 59 →
          (t.Hour < u.Hour ∨ (t.Hour = u.Hour ∧ (t.Minute < u.Minute
            ∨ (t.Minute = u.Minute ∧ t.Second < u.Second)))) →
          dElapsedJulianDays t < dElapsedJulianDays u := by
  have H0 : (0 : ℚ) ≤ t.Hour := by exact_mod_cast hh0
  have H1 : (t.Hour : ℚ) ≤ 23 := by exact_mod_cast hh1
  have M0 : (0 : ℚ) ≤ t.Minute := by exact_mod_cast hm0
  have M1 : (t.Minute : ℚ) ≤ 59 := by exact_mod_cast hm1
  have S0 : (0 : ℚ) ≤ t.Second := by exact_mod_cast hs0
  have S1 : (t.Second : ℚ) ≤ 59 := by exact_mod_cast hs1
  have hE : ∀ v : Time, dElapsedJulianDays v
      = (liAux2 v.Year v.Month v.Day : ℚ) - 2451545.5
        + (3600 * (v.Hour : ℚ) + 60 * (v.Minute : ℚ) + (v.Second : ℚ)) / 86400 := by
    intro v
    unfold dElapsedJulianDays dJulianDate dDecimalHours
    ring
  have hD : dDecimalHours t
      = (3600 * (t.Hour : ℚ) + 60 * (t.Minute : ℚ) + (t.Second : ℚ)) / 3600 := by
    unfold dDecimalHours
    ring
  refine ⟨hE t, ?_, ?_, ?_⟩
  · rw [hD]
    constructor
    · positivity
    · rw [div_lt_iff₀ (by norm_num)]
      linarith
  · rw [hE t]
    constructor
    · have : (0 : ℚ) ≤ (3600 * (t.Hour : ℚ) + 60 * (t.Minute : ℚ) + (t.Second : ℚ)) / 86400 := by
        positivity
      linarith
    · have : (3600 * (t.Hour : ℚ) + 60 * (t.Minute : ℚ) + (t.Second : ℚ)) / 86400 < 1 := by
        rw [div_lt_iff₀ (by norm_num)]
        linarith
      linarith
  · intro u hy hmo hd uh0 uh1 um0 um1 us0 us1 hlt
    rw [hE t, hE u, hy, hmo, hd]
    have hsec : 3600 * t.Hour + 60 * t.Minute + t.Second
        < 3600 * u.Hour + 60 * u.Minute + u.Second := by
      rcases hlt with h | ⟨h, h' | ⟨h', h''⟩⟩ <;> omega
    have hsecq : 3600 * (t.Hour : ℚ) + 60 * (t.Minute : ℚ) + (t.Second : ℚ)
        < 3600 * (u.Hour : ℚ) + 60 * (u.Minute : ℚ) + (u.Second : ℚ) := by
      exact_mod_cast hsec
    have := div_lt_div_of_pos_right hsecq (show (0 : ℚ) < 86400 by norm_num)
    linarith

/-- Witness for C12: 2015-09-18T12:00:00 UTC. -/
theorem elapsed_closed_form_witness :
    dElapsedJulianDays refTime
        = (liAux2 refTime.Year refTime.Month refTime.Day : ℚ) - 2451545.5
          + (3600 * (refTime.Hour : ℚ) + 60 * (refTime.Minute : ℚ)
              + (refTime.Second : ℚ)) / 86400 :=
  (elapsed_closed_form refTime (by decide) (by decide) (by decide) (by decide) (by decide)
    (by decide)).1
/-! ## Further lemmas and claims on the trigonometric stages -/

/-- Mirroring the point `(x, y)` in the x-axis negates `atan2`, except on the negative
x-axis where the value stays `π`. -/
theorem atan2_neg (y x : ℝ) :
    atan2 (-y) x = if atan2 y x = Real.pi then Real.pi else -atan2 y x := by
  unfold atan2
  have h : (⟨x, -y⟩ : ℂ) = (starRingEnd ℂ) ⟨x, y⟩ := by
    apply Complex.ext <;> simp
  rw [h, Complex.arg_conj]

/-- The parallax term never lifts a zenith angle in `[0, π]` above `π`. -/
theorem add_dParallax_le_pi (z : ℝ) (h0 : 0 ≤ z) (h1 : z ≤ Real.pi) :
    z + dParallax z ≤ Real.pi := by
  have hk0 := parallax_ratio_pos
  have hk1 : EarthMeanRadius / AstronomicalUnit ≤ 1 := by
    unfold EarthMeanRadius AstronomicalUnit
    norm_num
  have hs : Real.sin z ≤ Real.pi - z := by
    rw [← Real.sin_pi_sub]
    exact Real.sin_le (by linarith)
  have hs0 : 0 ≤ Real.sin z := Real.sin_nonneg_of_nonneg_of_le_pi h0 h1
  unfold dParallax
  nlinarith

/-- C13: for every ecliptic longitude and obliquity the normalised right ascension lies
in `[0, 2π)` and differs from `atan2(cos(obliquity)*sin(longitude), cos(longitude))` by
0 or by exactly `2π`. -/
theorem rightAscension_range (eclLon obl : ℝ) :
    (0 ≤ dRightAscension eclLon obl ∧ dRightAscension eclLon obl < 2 * Real.pi)
      ∧ (dRightAscension eclLon obl
            - atan2 (Real.cos obl * Real.sin eclLon) (Real.cos eclLon) = 0
          ∨ dRightAscension eclLon obl
            - atan2 (Real.cos obl * Real.sin eclLon) (Real.cos eclLon) = 2 * Real.pi) := by
  refine ⟨normalise_range _ (neg_pi_lt_atan2 _ _) (atan2_le_pi _ _), ?_⟩
  simp only [dRightAscension]
  split_ifs with h
  · right; ring
  · left; ring

/-- C14 (as amended): in exact real arithmetic the parallax correction never pushes the
zenith angle past 180 degrees: for every instant and location `0 ≤ ZenithAngle ≤ 180`, and
`ZenithAngle = 0` only if the `acos` value before the correction is 0. -/
theorem zenith_le_180 (t : Time) (loc : Location) :
    0 ≤ (Sunpos t loc).ZenithAngle ∧ (Sunpos t loc).ZenithAngle ≤ 180
      ∧ ((Sunpos t loc).ZenithAngle = 0 →
          zenithRad (loc.Latitude * Rad)
            (dHourAngle ((dElapsedJulianDays t : ℚ) : ℝ) ((dDecimalHours t : ℚ) : ℝ)
              loc.Longitude)
            (dDeclination (dEclipticLongitude ((dElapsedJulianDays t : ℚ) : ℝ))
              (dEclipticObliquity ((dElapsedJulianDays t : ℚ) : ℝ))) = 0) := by
  have hR := Rad_pos
  simp only [Sunpos, topocentric]
  set z := zenithRad (loc.Latitude * Rad)
    (dHourAngle ((dElapsedJulianDays t : ℚ) : ℝ) ((dDecimalHours t : ℚ) : ℝ) loc.Longitude)
    (dDeclination (dEclipticLongitude ((dElapsedJulianDays t : ℚ) : ℝ))
      (dEclipticObliquity ((dElapsedJulianDays t : ℚ) : ℝ))) with hz
  obtain ⟨h0, h1⟩ : 0 ≤ z ∧ z ≤ Real.pi := zenithRad_range _ _ _
  have hp0 : 0 ≤ dParallax z := (dParallax_range _ _ _).1
  have hle := add_dParallax_le_pi z h0 h1
  refine ⟨div_nonneg (by linarith) hR.le, ?_, ?_⟩
  · rw [div_le_iff₀ hR]
    have : (180 : ℝ) * Rad = Real.pi := by unfold Rad; ring
    rw [this]
    exact hle
  · intro h
    rw [div_eq_zero_iff] at h
    rcases h with h | h
    · linarith
    · exact absurd h hR.ne'

/-- Exact real arithmetic: the local stage is mirror-symmetric about the meridian:
replacing the hour angle `h` by `-h` leaves the zenith angle unchanged and reflects the azimuth, so that
`azimuth(h) + azimuth(-h)` is 0 or 360 degrees: `azimuth(-h) = 360 - azimuth(h)` when
`azimuth(h)` is not 0, and `azimuth(-h) = 0` when it is 0. -/
theorem topocentric_mirror (latitude decl h : ℝ) :
    (topocentric latitude (-h) decl).ZenithAngle = (topocentric latitude h decl).ZenithAngle
      ∧ ((topocentric latitude h decl).Azimuth + (topocentric latitude (-h) decl).Azimuth = 0
          ∨ (topocentric latitude h decl).Azimuth
              + (topocentric latitude (-h) decl).Azimuth = 360)
      ∧ ((topocentric latitude h decl).Azimuth ≠ 0 →
          (topocentric latitude (-h) decl).Azimuth
            = 360 - (topocentric latitude h decl).Azimuth)
      ∧ ((topocentric latitude h decl).Azimuth = 0 →
          (topocentric latitude (-h) decl).Azimuth = 0) := by
  have hR := Rad_pos
  have hpi := Real.pi_pos
  have h360 : (360 : ℝ) = 2 * Real.pi / Rad := by
    unfold Rad
    field_simp
    ring
  have hz : (topocentric latitude (-h) decl).ZenithAngle
      = (topocentric latitude h decl).ZenithAngle := by
    simp only [topocentric, zenithRad, zenithCosine, Real.cos_neg]
  simp only [topocentric, azimuthRad, Real.cos_neg, Real.sin_neg] at hz ⊢
  set a := atan2 (-Real.sin h)
    (Real.tan decl * Real.cos (latitude * Rad) - Real.sin (latitude * Rad) * Real.cos h)
    with ha
  have hneg : atan2 (Real.sin h)
      (Real.tan decl * Real.cos (latitude * Rad) - Real.sin (latitude * Rad) * Real.cos h)
      = if a = Real.pi then Real.pi else -a := by
    have := atan2_neg (-Real.sin h)
      (Real.tan decl * Real.cos (latitude * Rad) - Real.sin (latitude * Rad) * Real.cos h)
    rwa [neg_neg] at this
  rw [neg_neg, hneg]
  have h1 : -Real.pi < a := neg_pi_lt_atan2 _ _
  have h2 : a ≤ Real.pi := atan2_le_pi _ _
  refine ⟨hz, ?_⟩
  by_cases hπ : a = Real.pi
  · -- the sun due south: both azimuths are 180 degrees
    have e1 : ¬ a < 0 := by linarith
    have e2 : ¬ Real.pi < 0 := by linarith
    rw [if_pos hπ, if_neg e1, if_neg e2, hπ]
    have hv : Real.pi / Rad = 180 := by
      unfold Rad
      field_simp
    rw [hv]
    refine ⟨Or.inr (by norm_num), fun _ => by norm_num, fun h0 => by norm_num at h0⟩
  · rw [if_neg hπ]
    rcases lt_trichotomy a 0 with hlt | heq | hgt
    · have e2 : ¬ -a < 0 := by linarith
      rw [if_pos hlt, if_neg e2, h360]
      refine ⟨Or.inr (by field_simp), fun _ => by field_simp, fun h0 => ?_⟩
      rw [div_eq_zero_iff] at h0
      rcases h0 with h0 | h0
      · linarith
      · exact absurd h0 hR.ne'
    · have e1 : ¬ a < 0 := by linarith
      have e2 : ¬ -a < 0 := by linarith
      rw [if_neg e1, if_neg e2, heq]
      refine ⟨Or.inl (by simp), fun hne => absurd (by simp) hne, fun _ => by simp⟩
    · have e1 : ¬ a < 0 := by linarith
      have e2 : -a < 0 := by linarith
      rw [if_neg e1, if_pos e2, h360]
      refine ⟨Or.inr (by field_simp), fun _ => by field_simp; ring, fun h0 => ?_⟩
      rw [div_eq_zero_iff] at h0
      rcases h0 with h0 | h0
      · linarith
      · exact absurd h0 hR.ne'

/-- C17 (as amended): in exact real arithmetic, on the meridian the zenith angle is the
difference of latitude and declination: for a latitude in `[-90, 90]` degrees and a declination in `[-π/2, π/2]`, when the hour
angle is an integer multiple of `2π` the zenith angle before the parallax correction is
`|latitude*π/180 - declination|`, and when `latitude*π/180 = declination` the returned
zenith angle is exactly 0. -/
theorem meridian_zenith (latitude decl h : ℝ) (n : ℤ) (hl0 : -90 ≤ latitude)
    (hl1 : latitude ≤ 90) (hd0 : -(Real.pi / 2) ≤ decl) (hd1 : decl ≤ Real.pi / 2)
    (hh : h = n * (2 * Real.pi)) :
    zenithRad (latitude * Rad) h decl = |latitude * Rad - decl|
      ∧ (latitude * Rad = decl → (topocentric latitude h decl).ZenithAngle = 0) := by
  have hpi := Real.pi_pos
  have hR := Rad_pos
  have hRad : Rad = Real.pi / 180 := rfl
  have hφ0 : -(Real.pi / 2) ≤ latitude * Rad := by
    have := mul_le_mul_of_nonneg_right hl0 hR.le
    linarith
  have hφ1 : latitude * Rad ≤ Real.pi / 2 := by
    have := mul_le_mul_of_nonneg_right hl1 hR.le
    linarith
  have hcos : zenithCosine (latitude * Rad) h decl = Real.cos |latitude * Rad - decl| := by
    unfold zenithCosine
    rw [hh, Real.cos_int_mul_two_pi, Real.cos_abs, Real.cos_sub]
    ring
  have habs : |latitude * Rad - decl| ≤ Real.pi := by
    rw [abs_le]
    constructor <;> linarith
  have hz : zenithRad (latitude * Rad) h decl = |latitude * Rad - decl| := by
    unfold zenithRad
    rw [hcos, Real.arccos_cos (abs_nonneg _) habs]
  refine ⟨hz, fun heq => ?_⟩
  simp only [topocentric]
  rw [hz, heq, sub_self, abs_zero]
  simp [dParallax]

/-- Witness for C17: latitude 45 degrees, declination `45 * Rad`, hour angle 0. -/
theorem meridian_zenith_witness :
    zenithRad (45 * Rad) 0 (45 * Rad) = |45 * Rad - 45 * Rad|
      ∧ (45 * Rad = 45 * Rad → (topocentric 45 0 (45 * Rad)).ZenithAngle = 0) :=
  meridian_zenith 45 (45 * Rad) 0 0 (by norm_num) (by norm_num)
    (by unfold Rad; linarith [Real.pi_pos]) (by unfold Rad; linarith [Real.pi_pos])
    (by simp)

/-- For a civil date with year in `1..9999` the integer `liAux2` stays between the day
counts of the years 1 and 9999. -/
theorem liAux2_bounds {y m d : Int} (hy0 : 1 ≤ y) (hy1 : y ≤ 9999) (hm0 : 1 ≤ m)
    (hm1 : m ≤ 12) (hd0 : 1 ≤ d) (hd1 : d ≤ 31) :
    1721000 ≤ liAux2 y m d ∧ liAux2 y m d ≤ 5374000 := by
  by_cases hm : m ≤ 2
  · rw [liAux2_early (by omega) hm0 hm]
    constructor <;> omega
  · rw [liAux2_late (by omega) (by omega) hm1]
    constructor <;> omega

/-- For an instant with year in `1..9999` and fields in their civil ranges the elapsed
Julian days stay within about eight thousand years of the epoch. -/
theorem dElapsedJulianDays_bounds (t : Time) (hy0 : 1 ≤ t.Year) (hy1 : t.Year ≤ 9999)
    (hm0 : 1 ≤ t.Month) (hm1 : t.Month ≤ 12) (hd0 : 1 ≤ t.Day) (hd1 : t.Day ≤ 31)
    (hh0 : 0 ≤ t.Hour) (hh1 : t.Hour ≤ 23) (hi0 : 0 ≤ t.Minute) (hi1 : t.Minute ≤ 59)
    (hs0 : 0 ≤ t.Second) (hs1 : t.Second ≤ 59) :
    (-730546 : ℝ) ≤ ((dElapsedJulianDays t : ℚ) : ℝ)
      ∧ ((dElapsedJulianDays t : ℚ) : ℝ) ≤ 2922456 := by
  obtain ⟨j0, j1⟩ := liAux2_bounds hy0 hy1 hm0 hm1 hd0 hd1
  have J0 : (1721000 : ℚ) ≤ liAux2 t.Year t.Month t.Day := by exact_mod_cast j0
  have J1 : (liAux2 t.Year t.Month t.Day : ℚ) ≤ 5374000 := by exact_mod_cast j1
  have H0 : (0 : ℚ) ≤ t.Hour := by exact_mod_cast hh0
  have H1 : (t.Hour : ℚ) ≤ 23 := by exact_mod_cast hh1
  have M0 : (0 : ℚ) ≤ t.Minute := by exact_mod_cast hi0
  have M1 : (t.Minute : ℚ) ≤ 59 := by exact_mod_cast hi1
  have S0 : (0 : ℚ) ≤ t.Second := by exact_mod_cast hs0
  have S1 : (t.Second : ℚ) ≤ 59 := by exact_mod_cast hs1
  have hE : dElapsedJulianDays t
      = (liAux2 t.Year t.Month t.Day : ℚ) - 2451545.5
        + (3600 * (t.Hour : ℚ) + 60 * (t.Minute : ℚ) + (t.Second : ℚ)) / 86400 := by
    unfold dElapsedJulianDays dJulianDate dDecimalHours
    ring
  have hq : (-730546 : ℚ) ≤ dElapsedJulianDays t ∧ dElapsedJulianDays t ≤ 2922456 := by
    rw [hE]
    have f0 : (0 : ℚ) ≤ (3600 * (t.Hour : ℚ) + 60 * (t.Minute : ℚ) + (t.Second : ℚ)) / 86400 := by
      positivity
    have f1 : (3600 * (t.Hour : ℚ) + 60 * (t.Minute : ℚ) + (t.Second : ℚ)) / 86400 ≤ 1 := by
      rw [div_le_iff₀ (by norm_num)]
      linarith
    constructor <;> linarith
  constructor
  · exact_mod_cast hq.1
  · exact_mod_cast hq.2

/-- The obliquity stays strictly between 0 and 0.42 radians over the range of elapsed
Julian days of the years `1..9999`. -/
theorem dEclipticObliquity_bounds (d : ℝ) (h0 : -730546 ≤ d) (h1 : d ≤ 2922456) :
    0 < dEclipticObliquity d ∧ dEclipticObliquity d < 0.42 := by
  have c0 := Real.neg_one_le_cos (dOmega d)
  have c1 := Real.cos_le_one (dOmega d)
  unfold dEclipticObliquity
  constructor <;> norm_num <;> linarith

/-- For an obliquity in `[0, π/2]` the declination never exceeds the obliquity in
absolute value. -/
theorem abs_dDeclination_le (eclLon obl : ℝ) (h0 : 0 ≤ obl) (h1 : obl ≤ Real.pi / 2) :
    |dDeclination eclLon obl| ≤ obl := by
  have hs0 : 0 ≤ Real.sin obl :=
    Real.sin_nonneg_of_nonneg_of_le_pi h0 (by linarith [Real.pi_pos])
  have a1 := Real.neg_one_le_sin eclLon
  have a2 := Real.sin_le_one eclLon
  have hu : Real.sin obl * Real.sin eclLon ≤ Real.sin obl := by nlinarith
  have hl : -Real.sin obl ≤ Real.sin obl * Real.sin eclLon := by nlinarith
  have e : Real.arcsin (Real.sin obl) = obl := Real.arcsin_sin (by linarith) h1
  have m1 := Real.monotone_arcsin hu
  have m2 := Real.monotone_arcsin hl
  rw [Real.arcsin_neg] at m2
  rw [e] at m1 m2
  unfold dDeclination
  exact abs_le.mpr ⟨m2, m1⟩

/-- C15 (as amended): in exact real arithmetic, for every instant with year in `1..9999`
(and the other civil fields in their ranges) the obliquity computed by `Sunpos` lies strictly between 0 and 0.42 radians and
the declination is at most the obliquity in absolute value; hence the declination stays
inside `(-π/2, π/2)`, its cosine is positive and its tangent is finite (below 1 in
absolute value). -/
theorem obliquity_declination_bounds (t : Time) (hy0 : 1 ≤ t.Year) (hy1 : t.Year ≤ 9999)
    (hm0 : 1 ≤ t.Month) (hm1 : t.Month ≤ 12) (hd0 : 1 ≤ t.Day) (hd1 : t.Day ≤ 31)
    (hh0 : 0 ≤ t.Hour) (hh1 : t.Hour ≤ 23) (hi0 : 0 ≤ t.Minute) (hi1 : t.Minute ≤ 59)
    (hs0 : 0 ≤ t.Second) (hs1 : t.Second ≤ 59) :
    (0 < dEclipticObliquity ((dElapsedJulianDays t : ℚ) : ℝ)
        ∧ dEclipticObliquity ((dElapsedJulianDays t : ℚ) : ℝ) < 0.42)
      ∧ |dDeclination (dEclipticLongitude ((dElapsedJulianDays t : ℚ) : ℝ))
            (dEclipticObliquity ((dElapsedJulianDays t : ℚ) : ℝ))|
          ≤ dEclipticObliquity ((dElapsedJulianDays t : ℚ) : ℝ)
      ∧ |dDeclination (dEclipticLongitude ((dElapsedJulianDays t : ℚ) : ℝ))
            (dEclipticObliquity ((dElapsedJulianDays t : ℚ) : ℝ))| < Real.pi / 2
      ∧ 0 < Real.cos (dDeclination (dEclipticLongitude ((dElapsedJulianDays t : ℚ) : ℝ))
            (dEclipticObliquity ((dElapsedJulianDays t : ℚ) : ℝ)))
      ∧ |Real.tan (dDeclination (dEclipticLongitude ((dElapsedJulianDays t : ℚ) : ℝ))
            (dEclipticObliquity ((dElapsedJulianDays t : ℚ) : ℝ)))| < 1 := by
  have hpi := Real.pi_gt_three
  obtain ⟨e0, e1⟩ := dElapsedJulianDays_bounds t hy0 hy1 hm0 hm1 hd0 hd1 hh0 hh1 hi0 hi1
    hs0 hs1
  obtain ⟨o0, o1⟩ := dEclipticObliquity_bounds _ e0 e1
  have hdec := abs_dDeclination_le (dEclipticLongitude ((dElapsedJulianDays t : ℚ) : ℝ))
    (dEclipticObliquity ((dElapsedJulianDays t : ℚ) : ℝ)) o0.le (by linarith)
  set obl := dEclipticObliquity ((dElapsedJulianDays t : ℚ) : ℝ)
  set dec := dDeclination (dEclipticLongitude ((dElapsedJulianDays t : ℚ) : ℝ)) obl
  obtain ⟨d0, d1⟩ := abs_le.mp hdec
  have hlt : |dec| < Real.pi / 2 := by
    rw [abs_lt]
    constructor <;> linarith
  have hcos : 0 < Real.cos dec :=
    Real.cos_pos_of_mem_Ioo ⟨by linarith, by linarith⟩
  have ht1 : Real.tan dec < 1 := by
    rw [← Real.tan_pi_div_four]
    exact Real.tan_lt_tan_of_lt_of_lt_pi_div_two (by linarith) (by linarith) (by linarith)
  have ht0 : -1 < Real.tan dec := by
    rw [← Real.tan_pi_div_four, ← Real.tan_neg]
    exact Real.tan_lt_tan_of_lt_of_lt_pi_div_two (by linarith) (by linarith) (by linarith)
  exact ⟨⟨o0, o1⟩, hdec, hlt, hcos, abs_lt.mpr ⟨ht0, ht1⟩⟩

/-- Witness for C15: the reference instant 2015-09-18T12:00:00 UTC. -/
theorem obliquity_declination_bounds_witness :
    (1 ≤ refTime.Year ∧ refTime.Year ≤ 9999)
      ∧ (0 < dEclipticObliquity ((dElapsedJulianDays refTime : ℚ) : ℝ)
        ∧ dEclipticObliquity ((dElapsedJulianDays refTime : ℚ) : ℝ) < 0.42) :=
  ⟨⟨by decide, by decide⟩,
    (obliquity_declination_bounds refTime (by decide) (by decide) (by decide) (by decide)
      (by decide) (by decide) (by decide) (by decide) (by decide) (by decide) (by decide)
      (by decide)).1⟩

/-! ## The float64 embedding: checks of the arithmetic and of package `math` -/

/-- Spot checks of the `float64` arithmetic and of the `math` kernels against well-known
values: `0.1 + 0.2` is 0.30000000000000004, `1/3`, `math.Sqrt(2)`, `math.Pi`, `Rad`,
`math.Sin(1)`, `math.Cos(1)`, `math.Atan(1)`, `math.Asin(1)` and the bit pattern of 360. -/
theorem float64_spot_checks :
    (0.1 : F64) + 0.2 = F64.ofBits 0x3fd3333333333334
      ∧ (1 : F64) / 3 = F64.ofBits 0x3fd5555555555555
      ∧ Go.Sqrt 2 = F64.ofBits 0x3ff6a09e667f3bcd
      ∧ Go.Pi = F64.ofBits 0x400921fb54442d18
      ∧ Go.Rad = F64.ofBits 0x3f91df46a2529d39
      ∧ Go.Sin 1 = F64.ofBits 0x3feaed548f090cee
      ∧ Go.Cos 1 = F64.ofBits 0x3fe14a280fb5068c
      ∧ Go.Atan 1 = F64.ofBits 0x3fe921fb54442d18
      ∧ Go.Asin 1 = F64.ofBits 0x3ff921fb54442d18
      ∧ (360 : F64) = F64.ofBits 0x4076800000000000
      ∧ Go.Float64bits (-0.0010394594) = 0xbf5107cf0839ab0a := by
  decide!

/-! ## The float64 code at concrete inputs -/

/-- Negating the argument of `math.Cos` does not change the result, on every `float64`. -/
theorem Cos_neg_float64 (h : F64) : Go.Cos (-h) = Go.Cos h := by
  cases h <;> rfl

/-- The `acos` argument of line 111 and the zenith angle do not change when the hour
angle is negated, on every `float64`. -/
theorem zenith_mirror_float64 (latitude hourAngle decl : F64) :
    (Go.topocentric latitude (-hourAngle) decl).ZenithAngle
      = (Go.topocentric latitude hourAngle decl).ZenithAngle := by
  simp only [Go.topocentric, Go.zenithRad, Go.zenithCosine, Cos_neg_float64]

/-- The reference scenario on `float64`: the code returns 166.1100465793322 and
47.08562478005083. -/
theorem reference_scenario_float64 :
    Go.Sunpos refTime ⟨48.148, -11.573⟩
      = ⟨F64.ofBits 0x4064c38580676897, F64.ofBits 0x40478af5c0b705d3⟩ := by
  decide!

/-- C1 fails on the code: at 1997-09-21T23:53:27 UTC and `Location{-89, 179.85180643080204}` the
normalised azimuth in radians is exactly `2*math.Pi` (a tiny negative `math.Atan2` plus
`2*math.Pi` rounds to `2*math.Pi`), and the returned azimuth is exactly 360.0, not below
360. -/
theorem azimuth_360_float64 :
    Go.azimuthRad (-89 * Go.Rad)
        (Go.dHourAngle (Go.dElapsedJulianDays (Date 1997 9 21 23 53 27 0))
          (Go.dDecimalHours (Date 1997 9 21 23 53 27 0)) 179.85180643080204)
        (Go.dDeclination
          (Go.dEclipticLongitude (Go.dElapsedJulianDays (Date 1997 9 21 23 53 27 0)))
          (Go.dEclipticObliquity (Go.dElapsedJulianDays (Date 1997 9 21 23 53 27 0))))
        = Go.piConst 2 1
      ∧ (Go.Sunpos (Date 1997 9 21 23 53 27 0) ⟨-89, 179.85180643080204⟩).Azimuth = 360
      ∧ F64.lt (Go.Sunpos (Date 1997 9 21 23 53 27 0) ⟨-89, 179.85180643080204⟩).Azimuth 360
          = false := by
  decide!

/-- C8 fails on the code: at 2015-09-18T00:05:05 UTC and
`Location{2.0751575251598129, 177.33161783854212}` the returned zenith angle is NaN, so
`0 <= ZenithAngle` is false. -/
theorem zenith_nan_float64 :
    (Go.Sunpos (Date 2015 9 18 0 5 5 0)
        ⟨2.0751575251598129, 177.33161783854212⟩).ZenithAngle = F64.nan
      ∧ F64.le 0 (Go.Sunpos (Date 2015 9 18 0 5 5 0)
          ⟨2.0751575251598129, 177.33161783854212⟩).ZenithAngle = false := by
  decide!

/-- C9 fails on the code: at 2015-09-18T00:05:05 UTC and
`Location{2.0751575251598129, 177.33161783854212}` the argument handed to `math.Acos` on
line 111 is 1.0000000000000002, above 1, and `math.Acos` returns NaN. -/
theorem acos_argument_above_one_float64 :
    Go.zenithCosine (2.0751575251598129 * Go.Rad)
        (Go.dHourAngle (Go.dElapsedJulianDays (Date 2015 9 18 0 5 5 0))
          (Go.dDecimalHours (Date 2015 9 18 0 5 5 0)) 177.33161783854212)
        (Go.dDeclination
          (Go.dEclipticLongitude (Go.dElapsedJulianDays (Date 2015 9 18 0 5 5 0)))
          (Go.dEclipticObliquity (Go.dElapsedJulianDays (Date 2015 9 18 0 5 5 0))))
        = F64.ofBits 0x3ff0000000000001
      ∧ F64.gt (F64.ofBits 0x3ff0000000000001) 1 = true
      ∧ Go.Acos (F64.ofBits 0x3ff0000000000001) = F64.nan := by
  decide!

/-- C14 fails on the code: at 1999-09-17T00:55:28 UTC and
`Location{2.4976514198632143, 164.83075577938916}` the returned zenith angle is NaN, so
neither `0 <= ZenithAngle` nor `ZenithAngle <= 180` holds. -/
theorem zenith_not_in_range_float64 :
    (Go.Sunpos (Date 1999 9 17 0 55 28 0)
        ⟨2.4976514198632143, 164.83075577938916⟩).ZenithAngle = F64.nan
      ∧ F64.le 0 (Go.Sunpos (Date 1999 9 17 0 55 28 0)
          ⟨2.4976514198632143, 164.83075577938916⟩).ZenithAngle = false
      ∧ F64.le (Go.Sunpos (Date 1999 9 17 0 55 28 0)
          ⟨2.4976514198632143, 164.83075577938916⟩).ZenithAngle 180 = false := by
  decide!

/-- C2 fails on the code: at 2015-09-18T12:00:00 UTC and latitude 48.148 the longitudes
-11.5 and -11.5 + 360 give the azimuths 166.20840243995286 and 166.20840243995337 and
different zenith angles; at 2015-09-18T00:05:05 UTC, latitude 2.0751575251598435, the
longitudes 177.33161783854166 and 177.33161783854166 + 360 give the azimuths
94.45480148330027 and 264.07449259839507. -/
theorem longitude_shift_differs_float64 :
    (Go.Sunpos refTime ⟨48.148, -11.5⟩).Azimuth = F64.ofBits 0x4064c6ab3b980022
      ∧ (Go.Sunpos refTime ⟨48.148, -11.5 + 360⟩).Azimuth = F64.ofBits 0x4064c6ab3b980034
      ∧ (Go.Sunpos refTime ⟨48.148, -11.5 + 360⟩).ZenithAngle
          ≠ (Go.Sunpos refTime ⟨48.148, -11.5⟩).ZenithAngle
      ∧ (Go.Sunpos (Date 2015 9 18 0 5 5 0)
          ⟨2.0751575251598435, 177.33161783854166⟩).Azimuth = F64.ofBits 0x40579d1b77ae3c9b
      ∧ (Go.Sunpos (Date 2015 9 18 0 5 5 0)
          ⟨2.0751575251598435, 177.33161783854166 + 360⟩).Azimuth
            = F64.ofBits 0x407081311f269e6a := by
  decide!

/-- C15 fails on the code: at 1922-12-22T15:00:00 UTC the obliquity is 0.4093072072420613
and the declination is -0.4093072072420614, larger in absolute value. -/
theorem declination_exceeds_obliquity_float64 :
    Go.dEclipticObliquity (Go.dElapsedJulianDays (Date 1922 12 22 15 0 0 0))
        = F64.ofBits 0x3fda3216db47cab7
      ∧ Go.dDeclination
          (Go.dEclipticLongitude (Go.dElapsedJulianDays (Date 1922 12 22 15 0 0 0)))
          (Go.dEclipticObliquity (Go.dElapsedJulianDays (Date 1922 12 22 15 0 0 0)))
        = F64.ofBits 0xbfda3216db47cab8
      ∧ F64.le (F64.abs (F64.ofBits 0xbfda3216db47cab8)) (F64.ofBits 0x3fda3216db47cab7)
          = false := by
  decide!

/-- C16 fails on the code: for latitude -49.632, declination 0.29888168929144654 and the
hour angles 0.7325359711922463 and -0.7325359711922463 (the values of the stage at
1999-05-08T19:15:46 UTC, longitudes -67.85252625789133 and -151.79496523955646) the
azimuths are 318.87812405865816 and 41.12187594134186: their exact sum is
`360 + 3/2^47`, neither 0 nor 360, and `360 - 318.87812405865816` is 41.12187594134184. -/
theorem mirror_azimuth_float64 :
    (Go.topocentric (-49.632) 0.7325359711922463 0.29888168929144654).Azimuth
        = F64.ofBits 0x4073ee0ccbd01c48
      ∧ (Go.topocentric (-49.632) (-0.7325359711922463) 0.29888168929144654).Azimuth
        = F64.ofBits 0x40448f99a17f1dc3
      ∧ (360 : F64) - F64.ofBits 0x4073ee0ccbd01c48 = F64.ofBits 0x40448f99a17f1dc0
      ∧ (Go.topocentric (-49.632) (-0.7325359711922463) 0.29888168929144654).Azimuth
        ≠ 360 - (Go.topocentric (-49.632) 0.7325359711922463 0.29888168929144654).Azimuth
      ∧ (F64.ofBits 0x4073ee0ccbd01c48).toRat + (F64.ofBits 0x40448f99a17f1dc3).toRat
        = 360 + 3 / 2 ^ 47 := by
  refine ⟨by decide!, by decide!, by decide!, by decide!, ?_⟩
  have h1 : F64.ofBits 0x4073ee0ccbd01c48 = F64.fin false (0x13ee0ccbd01c48 * 2 ^ 1030) := by
    decide!
  have h2 : F64.ofBits 0x40448f99a17f1dc3 = F64.fin false (0x148f99a17f1dc3 * 2 ^ 1027) := by
    decide!
  have e1 : (2 : ℚ) ^ 1074 = 2 ^ 1030 * 2 ^ 44 := by rw [← pow_add]
  have e2 : (2 : ℚ) ^ 1074 = 2 ^ 1027 * 2 ^ 47 := by rw [← pow_add]
  have p1 : (2 : ℚ) ^ 1030 ≠ 0 := pow_ne_zero _ (by norm_num)
  have p2 : (2 : ℚ) ^ 1027 ≠ 0 := pow_ne_zero _ (by norm_num)
  rw [h1, h2]
  simp only [F64.toRat, Bool.false_eq_true, if_false, one_mul, Nat.cast_mul, Nat.cast_pow,
    Nat.cast_ofNat]
  rw [show ((0x13ee0ccbd01c48 : ℚ) * 2 ^ 1030) / 2 ^ 1074 = 0x13ee0ccbd01c48 / 2 ^ 44 by
        rw [e1]; field_simp; ring,
      show ((0x148f99a17f1dc3 : ℚ) * 2 ^ 1027) / 2 ^ 1074 = 0x148f99a17f1dc3 / 2 ^ 47 by
        rw [e2]; field_simp; ring]
  norm_num

/-- C17 fails on the code: at 1999-10-08T10:55:20 UTC and
`Location{-5.80127556407792, 13.083211760451135}` the hour angle is exactly 0 and the
declination equals `latitude * Rad`, yet the `acos` argument is 0.9999999999999998 and the
returned zenith angle is 1.2074696955114306e-06, not 0. -/
theorem meridian_zenith_float64 :
    Go.dHourAngle (Go.dElapsedJulianDays (Date 1999 10 8 10 55 20 0))
        (Go.dDecimalHours (Date 1999 10 8 10 55 20 0)) 13.083211760451135 = 0
      ∧ Go.dDeclination
          (Go.dEclipticLongitude (Go.dElapsedJulianDays (Date 1999 10 8 10 55 20 0)))
          (Go.dEclipticObliquity (Go.dElapsedJulianDays (Date 1999 10 8 10 55 20 0)))
        = -5.80127556407792 * Go.Rad
      ∧ Go.zenithCosine (-5.80127556407792 * Go.Rad) 0 (-5.80127556407792 * Go.Rad)
        = F64.ofBits 0x3feffffffffffffe
      ∧ (Go.topocentric (-5.80127556407792) 0 (-5.80127556407792 * Go.Rad)).ZenithAngle
        = F64.ofBits 0x3eb4420af86c435c
      ∧ (Go.Sunpos (Date 1999 10 8 10 55 20 0)
          ⟨-5.80127556407792, 13.083211760451135⟩).ZenithAngle
        = F64.ofBits 0x3eb4420af86c435c
      ∧ F64.eq (F64.ofBits 0x3eb4420af86c435c) 0 = false := by
  decide!

/-- C16 (as amended): replacing the hour angle `h` by `-h` leaves the zenith angle
unchanged, also bit for bit on `float64`; in exact real arithmetic
`azimuth(h) + azimuth(-h)` is 0 or 360 degrees: `azimuth(-h) = 360 - azimuth(h)` when
`azimuth(h)` is not 0, and `azimuth(-h) = 0` when it is 0. -/
theorem topocentric_mirror_amended :
    (∀ latitude hourAngle decl : F64,
        (Go.topocentric latitude (-hourAngle) decl).ZenithAngle
          = (Go.topocentric latitude hourAngle decl).ZenithAngle)
      ∧ ∀ latitude decl h : ℝ,
        (topocentric latitude (-h) decl).ZenithAngle = (topocentric latitude h decl).ZenithAngle
          ∧ ((topocentric latitude h decl).Azimuth
                + (topocentric latitude (-h) decl).Azimuth = 0
              ∨ (topocentric latitude h decl).Azimuth
                + (topocentric latitude (-h) decl).Azimuth = 360)
          ∧ ((topocentric latitude h decl).Azimuth ≠ 0 →
              (topocentric latitude (-h) decl).Azimuth
                = 360 - (topocentric latitude h decl).Azimuth)
          ∧ ((topocentric latitude h decl).Azimuth = 0 →
              (topocentric latitude (-h) decl).Azimuth = 0) :=
  ⟨zenith_mirror_float64, topocentric_mirror⟩

end SolarPosition
